import Mathlib

/-!
Verification of the clinical calculator subsystem of the medical-mcp
repository.  The TypeScript source is shallowly embedded: JS numbers are
modelled as exact rationals (cast into the reals where the source calls
`Math.log`, `Math.sqrt`, `Math.cbrt` or `Math.pow`), the loosely typed
parameter bag `CalculatorParameters` is an association list of scalar
values, a thrown `Error` is `Except.error`, and an absent key read with a
plain `as number` cast (which yields `undefined`/`NaN` in every JS
comparison) is modelled as `Option.none` with comparison helpers that are
false on `none`, exactly as every comparison with `NaN` is false.
The static text fields of `CalculatorResult` (`formula`, `citation`,
`notes`) and the rendered report string (`formatCalculatorOutput`,
`formatWithDisclaimer`) carry no logic touched by the claims and are
omitted from the embedded result record; `value`, `unit`,
`interpretation` and `warnings` are kept.
-/

namespace MedicalCalc

/-- Scalar values of the `CalculatorParameters` bag (`number`, `string`
or `boolean` in the source). -/
inductive PValue where
  | num (q : ℚ)
  | str (s : String)
  | bool (b : Bool)
deriving DecidableEq, Repr

/-- The loosely typed parameter bag `CalculatorParameters`
(`Record<string, unknown>` restricted to the scalar values actually
passed to calculators). -/
abbrev Params := List (String × PValue)

/-- First binding of a key in the bag. -/
def lookupParam : Params → String → Option PValue
  | [], _ => none
  | (k, v) :: rest, key => if k = key then some v else lookupParam rest key

/-- Read `params.k as number`: `some` when the key holds a number,
`none` (JS `undefined`, hence `NaN` in arithmetic) otherwise. -/
def getNum (p : Params) (k : String) : Option ℚ :=
  match lookupParam p k with
  | some (.num q) => some q
  | _ => none

/-- Read `params.k as boolean`. -/
def getBool (p : Params) (k : String) : Option Bool :=
  match lookupParam p k with
  | some (.bool b) => some b
  | _ => none

/-- Read `params.k as string`. -/
def getStr (p : Params) (k : String) : Option String :=
  match lookupParam p k with
  | some (.str s) => some s
  | _ => none

/-- The JS idiom `(params.k as number) || d`: an absent key or the falsy
number `0` both give the default `d`. -/
def jsOrNum (p : Params) (k : String) (d : ℚ) : ℚ :=
  match getNum p k with
  | some q => if q = 0 then d else q
  | none => d

/-- The JS idiom `(params.k as boolean) || false`. -/
def jsOrBool (p : Params) (k : String) : Bool :=
  (getBool p k).getD false

/-- The JS idiom `(params.k as string) || d`: an absent key or the falsy
empty string both give the default `d`. -/
def jsOrStr (p : Params) (k : String) (d : String) : String :=
  match getStr p k with
  | some s => if s = "" then d else s
  | none => d

/-- JS comparison `a < c` where `a` may be `undefined`/`NaN`: every
comparison with `NaN` is false. -/
def optLt (a : Option ℚ) (c : ℚ) : Bool :=
  match a with
  | some x => decide (x < c)
  | none => false

/-- JS comparison `a > c` where `a` may be `undefined`/`NaN`. -/
def optGt (a : Option ℚ) (c : ℚ) : Bool :=
  match a with
  | some x => decide (c < x)
  | none => false

/-- JS comparison `a >= c` where `a` may be `undefined`/`NaN`. -/
def optGe (a : Option ℚ) (c : ℚ) : Bool :=
  match a with
  | some x => decide (c ≤ x)
  | none => false

/-- JS comparison `a <= c` where `a` may be `undefined`/`NaN`. -/
def optLe (a : Option ℚ) (c : ℚ) : Bool :=
  match a with
  | some x => decide (x ≤ c)
  | none => false

/-- String interpolation of a possibly-`NaN` number (the exact decimal
rendering of JS is abstracted by the rational `toString`). -/
def jsShowNum (a : Option ℚ) : String :=
  match a with
  | some q => toString q
  | none => "NaN"

/-- String interpolation of a raw parameter read that may be absent
(JS prints `undefined` for it). -/
def jsShowRaw (a : Option ℚ) : String :=
  match a with
  | some q => toString q
  | none => "undefined"

/-- JS `toLowerCase`, computed over the character list (behaviourally
the library `String.toLower`, whose byte-position recursion does not
reduce in the kernel). -/
def jsToLower (s : String) : String := ⟨s.data.map Char.toLower⟩

/-- JS `Math.round` on a rational-valued computation: round half towards
positive infinity. -/
def jsRoundQ (q : ℚ) : ℤ := ⌊q + 1/2⌋

/-- JS `Math.round` on a real-valued computation. -/
noncomputable def jsRound (x : ℝ) : ℤ := ⌊x + 1/2⌋

/-- JS `Math.cbrt`, for the nonnegative arguments reachable in this
code (the RR interval in seconds is checked positive first). -/
noncomputable def jsCbrt (x : ℝ) : ℝ := x ^ ((1 : ℝ) / 3)

/-- SafetyWarning severity levels. -/
inductive WLevel where
  | info | warning | error
deriving DecidableEq, Repr

/-- SafetyWarning categories. -/
inductive WCategory where
  | contraindication | overdose | pregnancy | pediatric | geriatric
deriving DecidableEq, Repr

/-- SafetyWarning of the source (`level`, `message`, optional
`category`). -/
structure SafetyWarning where
  level : WLevel
  message : String
  category : Option WCategory := none
deriving DecidableEq, Repr

/-- Embedded `CalculatorResult`: `value` is `none` when the JS
computation would produce `NaN` from an absent input. -/
structure CalcResult where
  value : Option ℚ
  unit : String
  interpretation : String
  warnings : List SafetyWarning := []
deriving DecidableEq, Repr

/-- ParameterRange entry of the static `PARAMETER_RANGES` table. -/
structure ParameterRange where
  min : ℚ
  max : ℚ
  unit : String
  warnMin : ℚ
  warnMax : ℚ
deriving DecidableEq, Repr

/-- The `weight` row of `PARAMETER_RANGES`. -/
def weightRange : ParameterRange := ⟨10, 500, "kg", 20, 200⟩

/-- The `height` row of `PARAMETER_RANGES`. -/
def heightRange : ParameterRange := ⟨50, 250, "cm", 100, 220⟩

/-- The `age` row of `PARAMETER_RANGES`. -/
def ageRange : ParameterRange := ⟨0, 150, "years", 0, 120⟩

/-- The `creatinine` row of `PARAMETER_RANGES`. -/
def creatinineRange : ParameterRange := ⟨1/10, 20, "mg/dL", 1/2, 3/2⟩

/-- RangeValidationResult of `validators/ranges.ts`. -/
structure RangeValidationResult where
  valid : Bool
  warning : Option String := none
  error : Option String := none
deriving DecidableEq, Repr

/-- validateRange of `validators/ranges.ts`: hard error outside
`[min, max]`, soft warning outside `[warnMin, warnMax]`.  The value is
an `Option ℚ` so that an `undefined` parameter (`NaN` in every
comparison) validates, exactly as in the source. -/
def validateRange (value : Option ℚ) (paramName : String) (range : ParameterRange) :
    RangeValidationResult :=
  if optLt value range.min || optGt value range.max then
    { valid := false
    , error := some (paramName ++ " value " ++ jsShowRaw value ++ " " ++ range.unit ++
        " is outside acceptable range (" ++ toString range.min ++ "-" ++
        toString range.max ++ " " ++ range.unit ++ "). Please verify input.") }
  else if optLt value range.warnMin || optGt value range.warnMax then
    { valid := true
    , warning := some (paramName ++ " value " ++ jsShowRaw value ++ " " ++ range.unit ++
        " is outside typical range (" ++ toString range.warnMin ++ "-" ++
        toString range.warnMax ++ " " ++ range.unit ++ "). Please verify.") }
  else { valid := true }

/-- validateWeight of `validators/ranges.ts`. -/
def validateWeight (weight : Option ℚ) : RangeValidationResult :=
  validateRange weight "weight" weightRange

/-- validateHeight of `validators/ranges.ts`. -/
def validateHeight (height : Option ℚ) : RangeValidationResult :=
  validateRange height "height" heightRange

/-- validateAge of `validators/ranges.ts`. -/
def validateAge (age : Option ℚ) : RangeValidationResult :=
  validateRange age "age" ageRange

/-- validateCreatinine of `validators/ranges.ts`. -/
def validateCreatinine (creatinine : Option ℚ) : RangeValidationResult :=
  validateRange creatinine "creatinine" creatinineRange

/-- Turn a validator's optional warning into the warning-list entry the
calculators push (`level: "warning"`). -/
def warnList (w : Option String) : List SafetyWarning :=
  match w with
  | some m => [⟨.warning, m, none⟩]
  | none => []

/-- The five life-stage bands of `validators/pediatric.ts`. -/
inductive PediatricAgeGroup where
  | neonate | infant | child | adolescent | adult
deriving DecidableEq, Repr

/-- getPediatricAgeGroup of `validators/pediatric.ts`: age in years is
converted to days (`years × 365.25`) for the two youngest bands, year
thresholds for the rest; a negative age throws. -/
def getPediatricAgeGroup (ageYears : ℚ) : Except String PediatricAgeGroup :=
  if ageYears < 0 then .error "Age cannot be negative"
  else
    let ageDays := ageYears * 365.25
    if ageDays ≤ 28 then .ok .neonate
    else if ageDays ≤ 365.25 then .ok .infant
    else if ageYears < 13 then .ok .child
    else if ageYears < 18 then .ok .adolescent
    else .ok .adult

/-- getPediatricAgeGroup applied to a raw `as number` read: an absent
key is `NaN`, every comparison in the source is then false and the
classifier falls through every branch to `adult`. -/
def getPediatricAgeGroupN (ageYears : Option ℚ) : Except String PediatricAgeGroup :=
  match ageYears with
  | some a => getPediatricAgeGroup a
  | none => .ok .adult

/-- PediatricAgeInfo of `validators/pediatric.ts` (the `group` field is
the index itself). -/
structure PediatricAgeInfo where
  ageRange : String
  description : String
deriving DecidableEq, Repr

/-- The static PEDIATRIC_AGE_GROUPS table. -/
def PEDIATRIC_AGE_GROUPS : PediatricAgeGroup → PediatricAgeInfo
  | .neonate => ⟨"0-28 days", "Neonatal period (0-28 days of life)"⟩
  | .infant => ⟨"29 days - 1 year", "Infancy (29 days to 1 year)"⟩
  | .child => ⟨"1-12 years", "Childhood (1-12 years)"⟩
  | .adolescent => ⟨"13-18 years", "Adolescence (13-18 years)"⟩
  | .adult => ⟨"18+ years", "Adulthood (18 years and older)"⟩

/-- getPediatricAgeInfo of `validators/pediatric.ts`, over a raw read. -/
def getPediatricAgeInfoN (ageYears : Option ℚ) : Except String PediatricAgeInfo :=
  (getPediatricAgeGroupN ageYears).map PEDIATRIC_AGE_GROUPS

/-- Result record of validatePediatricDosing. -/
structure PedValidation where
  valid : Bool
  warnings : List String
  errors : List String
deriving DecidableEq, Repr

/-- validatePediatricDosing of `validators/pediatric.ts`: negative age
or weight is an error; each of the three youngest bands has a
weight-plausibility window producing a warning.  The classifier call
inside it throws on negative age, hence the `Except`. -/
def validatePediatricDosing (ageYears weightKg : Option ℚ) : Except String PedValidation :=
  let errors := (if optLt ageYears 0 then ["Age cannot be negative"] else []) ++
                (if optLt weightKg 0 then ["Weight cannot be negative"] else [])
  match getPediatricAgeGroupN ageYears with
  | .error e => .error e
  | .ok ageGroup =>
    let warnings :=
      (if ageGroup = .neonate ∧ (optLt weightKg (1/2) || optGt weightKg 5) then
        ["Neonate weight outside typical range (0.5-5 kg). Please verify."] else []) ++
      (if ageGroup = .infant ∧ (optLt weightKg 2 || optGt weightKg 15) then
        ["Infant weight outside typical range (2-15 kg). Please verify."] else []) ++
      (if ageGroup = .child ∧ (optLt weightKg 8 || optGt weightKg 50) then
        ["Child weight outside typical range (8-50 kg). Please verify."] else [])
    .ok { valid := errors.isEmpty, warnings := warnings, errors := errors }

/-- Modelled from the spec: the banding exactly as the claim words it
(≤28 days neonate, ≤365.25 days infant, <13 years child, <18 years
adolescent, else adult, days = years × 365.25). -/
def pediatricSpecBand (ageYears : ℚ) : PediatricAgeGroup :=
  let ageDays := ageYears * 365.25
  if ageDays ≤ 28 then .neonate
  else if ageDays ≤ 365.25 then .infant
  else if ageYears < 13 then .child
  else if ageYears < 18 then .adolescent
  else .adult

/-- The six boolean risk flags of the CHA₂DS₂-VASc score. -/
structure ChadsFlags where
  chf : Bool
  htn : Bool
  dm : Bool
  stroke : Bool
  vasc : Bool
  female : Bool
deriving DecidableEq, Repr

/-- Score accumulation of calculateCHADS2VASc (the sequential
`score +=` steps of the source), factored out so the monotonicity claim
can quantify over flag vectors.  The age is a raw `as number` read. -/
def chadsScore (age : Option ℚ) (f : ChadsFlags) : ℕ :=
  (if f.chf then 1 else 0) + (if f.htn then 1 else 0) +
  (if optGe age 75 then 2 else if optGe age 65 then 1 else 0) +
  (if f.dm then 1 else 0) + (if f.stroke then 2 else 0) +
  (if f.vasc then 1 else 0) + (if f.female then 1 else 0)

/-- calculateCHADS2VASc of `categories/cardiovascular.ts`. -/
def calculateCHADS2VASc (p : Params) : Except String CalcResult :=
  let age := getNum p "age"
  let hasCHF := jsOrBool p "hasCHF"
  let hasHypertension := jsOrBool p "hasHypertension"
  let hasDiabetes := jsOrBool p "hasDiabetes"
  let hasStrokeTIA := jsOrBool p "hasStrokeTIA"
  let hasVascularDisease := jsOrBool p "hasVascularDisease"
  let isFemale := (getStr p "gender" == some "female") || jsOrBool p "isFemale"
  let ageValidation := validateAge age
  if ageValidation.valid = false then .error (ageValidation.error.getD "") else
  let score := chadsScore age
    ⟨hasCHF, hasHypertension, hasDiabetes, hasStrokeTIA, hasVascularDisease, isFemale⟩
  .ok { value := some (score : ℚ)
      , unit := "points"
      , interpretation :=
          if score = 0 then
            "Low risk - No anticoagulation recommended (unless other indications)"
          else if score = 1 then
            "Low-moderate risk - Consider anticoagulation (warfarin, DOAC)"
          else if 2 ≤ score ∧ score ≤ 4 then
            "Moderate-high risk - Anticoagulation recommended (warfarin or DOAC)"
          else
            "High risk - Anticoagulation strongly recommended (warfarin or DOAC)"
      , warnings := warnList ageValidation.warning ++
          [⟨.info, "CHADS2-VASc score is validated for patients with atrial fibrillation. Ensure patient has confirmed AF before using this score.", none⟩] }

/-- Parameter bag of a CHA₂DS₂-VASc invocation. -/
def mkChadsParams (age : ℚ) (f : ChadsFlags) : Params :=
  [("age", .num age), ("hasCHF", .bool f.chf), ("hasHypertension", .bool f.htn),
   ("hasDiabetes", .bool f.dm), ("hasStrokeTIA", .bool f.stroke),
   ("hasVascularDisease", .bool f.vasc), ("isFemale", .bool f.female)]

/-- Pointwise order on flag vectors: `g` sets every flag `f` sets (the
claim's single-flag flip from false to true is a special case). -/
def flagsLe (f g : ChadsFlags) : Prop :=
  (f.chf = true → g.chf = true) ∧ (f.htn = true → g.htn = true) ∧
  (f.dm = true → g.dm = true) ∧ (f.stroke = true → g.stroke = true) ∧
  (f.vasc = true → g.vasc = true) ∧ (f.female = true → g.female = true)

/-- Boolean success test for an embedded calculator run. -/
def isOkE {α : Type} (e : Except String α) : Bool :=
  match e with
  | .ok _ => true
  | .error _ => false

open Classical in
/-- CKD-stage banding shared verbatim by the three renal calculators
(the source repeats the same ladder in each function). -/
noncomputable def egfrStage (egfr : ℝ) : String :=
  if egfr ≥ 90 then "Normal or high - CKD Stage 1-2 (if kidney damage present)"
  else if egfr ≥ 60 then "Mildly decreased - CKD Stage 2"
  else if egfr ≥ 45 then "Mildly to moderately decreased - CKD Stage 3a"
  else if egfr ≥ 30 then "Moderately to severely decreased - CKD Stage 3b"
  else if egfr ≥ 15 then "Severely decreased - CKD Stage 4"
  else "Kidney failure - CKD Stage 5 (dialysis may be needed)"

/-- calculateCreatinineClearance of `categories/renal.ts`
(Cockcroft-Gault): validates age, weight and creatinine against the
hard range tables, rejects age < 18, then computes
`((140 − age) × weight × genderFactor) / (72 × creatinine)` rounded to
one decimal. -/
def calculateCreatinineClearance (p : Params) : Except String CalcResult :=
  let age := getNum p "age"
  let weight := getNum p "weight"
  let creatinine := getNum p "creatinine"
  let gender := jsOrStr p "gender" "male"
  let isFemale := gender == "female"
  let ageValidation := validateAge age
  if ageValidation.valid = false then .error (ageValidation.error.getD "") else
  let weightValidation := validateWeight weight
  if weightValidation.valid = false then .error (weightValidation.error.getD "") else
  let creatinineValidation := validateCreatinine creatinine
  if creatinineValidation.valid = false then .error (creatinineValidation.error.getD "") else
  if optLt age 18 then
    .error "Cockcroft-Gault formula is validated for adults (≥18 years). For pediatric patients, consider Schwartz formula."
  else
    let genderFactor : ℚ := if isFemale then 0.85 else 1.0
    let crCl : Option ℚ := do
      let a ← age
      let w ← weight
      let c ← creatinine
      pure (((140 - a) * w * genderFactor) / (72 * c))
    .ok { value := crCl.map (fun x => ((jsRoundQ (x * 10) : ℚ) / 10))
        , unit := "mL/min"
        , interpretation :=
            if optGe crCl 90 then "Normal or high - CKD Stage 1-2 (if kidney damage present)"
            else if optGe crCl 60 then "Mildly decreased - CKD Stage 2"
            else if optGe crCl 45 then "Mildly to moderately decreased - CKD Stage 3a"
            else if optGe crCl 30 then "Moderately to severely decreased - CKD Stage 3b"
            else if optGe crCl 15 then "Severely decreased - CKD Stage 4"
            else "Kidney failure - CKD Stage 5 (dialysis may be needed)"
        , warnings := warnList ageValidation.warning ++ warnList weightValidation.warning ++
            warnList creatinineValidation.warning ++
            (if optGt creatinine 5 then
              [⟨.warning, "Cockcroft-Gault formula may not be accurate in unstable renal function or acute kidney injury. Consider alternative methods.", some .contraindication⟩]
             else []) ++
            (if optGt age 80 then
              [⟨.info, "Cockcroft-Gault formula may be less accurate in elderly patients (>80 years). Consider clinical context.", some .contraindication⟩]
             else []) }

open Classical in
/-- calculateMDRD of `categories/renal.ts`: 4-variable MDRD eGFR with
the age < 18 domain error. -/
noncomputable def calculateMDRD (p : Params) : Except String CalcResult :=
  let age := jsOrNum p "age" 0
  let creatinine := jsOrNum p "creatinine" 0
  let gender := jsOrStr p "gender" "male"
  let isFemale := gender == "female"
  let isBlack := jsOrBool p "isBlack"
  let ageValidation := validateAge (some age)
  if ageValidation.valid = false then .error (ageValidation.error.getD "") else
  let creatinineValidation := validateCreatinine (some creatinine)
  if creatinineValidation.valid = false then .error (creatinineValidation.error.getD "") else
  if age < 18 then .error "MDRD equation is validated for adults (≥18 years)"
  else
    let egfr0 : ℝ := 175 * (creatinine : ℝ) ^ (-1.154 : ℝ) * (age : ℝ) ^ (-0.203 : ℝ)
    let egfr1 : ℝ := if isFemale then egfr0 * 0.742 else egfr0
    let egfr : ℝ := if isBlack then egfr1 * 1.212 else egfr1
    .ok { value := some ((jsRound (egfr * 10) : ℚ) / 10)
        , unit := "mL/min/1.73m2"
        , interpretation := egfrStage egfr
        , warnings := warnList ageValidation.warning ++ warnList creatinineValidation.warning }

open Classical in
/-- calculateCKDEPI of `categories/renal.ts`: CKD-EPI eGFR, race-neutral
unless explicitly disabled, with the age < 18 domain error. -/
noncomputable def calculateCKDEPI (p : Params) : Except String CalcResult :=
  let age := jsOrNum p "age" 0
  let creatinine := jsOrNum p "creatinine" 0
  let gender := jsOrStr p "gender" "male"
  let isFemale := gender == "female"
  let useRaceNeutral := (getBool p "useRaceNeutral").getD true
  let ageValidation := validateAge (some age)
  if ageValidation.valid = false then .error (ageValidation.error.getD "") else
  let creatinineValidation := validateCreatinine (some creatinine)
  if creatinineValidation.valid = false then .error (creatinineValidation.error.getD "") else
  if age < 18 then .error "CKD-EPI equation is validated for adults (≥18 years)"
  else
    let kappa : ℚ := if isFemale then 0.7 else 0.9
    let alpha : ℝ := if isFemale then -0.329 else -0.411
    let minValue : ℚ := min (creatinine / kappa) 1
    let egfr0 : ℝ := 141 * (minValue : ℝ) ^ alpha * (0.993 : ℝ) ^ (age : ℝ)
    let egfr1 : ℝ := if isFemale then egfr0 * 1.018 else egfr0
    let egfr : ℝ := if !useRaceNeutral && jsOrBool p "isBlack" then egfr1 * 1.159 else egfr1
    .ok { value := some ((jsRound (egfr * 10) : ℚ) / 10)
        , unit := "mL/min/1.73m2"
        , interpretation := egfrStage egfr
        , warnings := warnList ageValidation.warning ++ warnList creatinineValidation.warning ++
            (if useRaceNeutral then
              [⟨.info, "Using race-neutral CKD-EPI equation (2021 version). This is the current recommended approach.", none⟩]
             else []) }

/-- Parameter bag of a renal-calculator invocation. -/
def mkRenalParams (age weight creatinine : ℚ) (female black : Bool) : Params :=
  [("age", .num age), ("weight", .num weight), ("creatinine", .num creatinine),
   ("gender", .str (if female then "female" else "male")), ("isBlack", .bool black)]

/-- calculateMELD of `categories/critical-care.ts`: throws unless
bilirubin, INR and creatinine are positive; floors each log argument at
1 (dialysis forces the creatinine term to 4.0); rounds to the nearest
integer and caps the score at 40. -/
noncomputable def calculateMELD (p : Params) : Except String CalcResult :=
  let bilirubin := jsOrNum p "bilirubin" 0
  let inr := jsOrNum p "inr" 0
  let creatinine := jsOrNum p "creatinine" 0
  let onDialysis := jsOrBool p "onDialysis"
  if bilirubin ≤ 0 ∨ inr ≤ 0 ∨ creatinine ≤ 0 then
    .error "Bilirubin, INR, and creatinine must be positive values"
  else
    let bilirubinAdjusted : ℝ := max (bilirubin : ℝ) 1
    let inrAdjusted : ℝ := max (inr : ℝ) 1
    let creatinineAdjusted : ℝ := if onDialysis then 4.0 else max (creatinine : ℝ) 1
    let meld0 : ℝ := 3.78 * Real.log bilirubinAdjusted + 11.2 * Real.log inrAdjusted +
      9.57 * Real.log creatinineAdjusted + 6.43
    let meldRounded : ℤ := jsRound meld0
    let meld : ℤ := if meldRounded > 40 then 40 else meldRounded
    .ok { value := some ((meld : ℚ))
        , unit := "points"
        , interpretation :=
            if meld ≥ 25 then "Very high priority for liver transplant"
            else if meld ≥ 18 then "High priority for liver transplant"
            else if meld ≥ 15 then "Moderate priority"
            else "Lower priority"
        , warnings := [] }

/-- Modelled from the spec: the MELD formula exactly as the claim words
it, `3.78×ln(max(bili,1)) + 11.2×ln(max(INR,1)) + 9.57×ln(term) + 6.43`
with the term 4.0 under dialysis and `max(creatinine,1)` otherwise,
rounded to the nearest integer and clamped to at most 40. -/
noncomputable def meldSpec (bilirubin inr creatinine : ℚ) (onDialysis : Bool) : ℤ :=
  min (jsRound (3.78 * Real.log (max (bilirubin : ℝ) 1) +
    11.2 * Real.log (max (inr : ℝ) 1) +
    9.57 * Real.log (if onDialysis then 4.0 else max (creatinine : ℝ) 1) + 6.43)) 40

/-- Parameter bag of a MELD invocation. -/
def mkMeldParams (bilirubin inr creatinine : ℚ) (onDialysis : Bool) : Params :=
  [("bilirubin", .num bilirubin), ("inr", .num inr),
   ("creatinine", .num creatinine), ("onDialysis", .bool onDialysis)]

open Classical in
/-- calculateQTcCorrection of `categories/missing-critical.ts`: derives
RR from heart rate when RR is absent or nonpositive, selects Bazett by
default, Fridericia by name, and otherwise the Framingham branch
`qt + 0.154 × (1 − RR_sec)` (note the source coefficient 0.154 with QT
in milliseconds), rounds the result and bands it at 500/480/450 ms. -/
noncomputable def calculateQTcCorrection (p : Params) : Except String CalcResult :=
  let qt := jsOrNum p "qt" 0
  let rr := jsOrNum p "rr" 0
  let heartRate := jsOrNum p "heartRate" 0
  let formula := jsOrStr p "formula" "bazett"
  if qt ≤ 0 then .error "QT interval must be positive"
  else
    let rrCalculated := if rr ≤ 0 ∧ 0 < heartRate then 60 / heartRate * 1000 else rr
    if rrCalculated ≤ 0 then
      .error "Either RR interval (ms) or heart rate (bpm) must be provided"
    else
      let rrSeconds : ℚ := rrCalculated / 1000
      let qtc : ℝ :=
        if formula = "bazett" then (qt : ℝ) / Real.sqrt (rrSeconds : ℝ)
        else if formula = "fridericia" then (qt : ℝ) / jsCbrt (rrSeconds : ℝ)
        else (qt : ℝ) + 0.154 * (1 - (rrSeconds : ℝ))
      .ok { value := some ((jsRound qtc : ℚ))
          , unit := "ms"
          , interpretation :=
              if qtc > 500 then "Prolonged QTc - HIGH RISK of torsades de pointes"
              else if qtc > 480 then "Prolonged QTc - Moderate risk"
              else if qtc > 450 then "Borderline prolonged QTc"
              else "Normal QTc"
          , warnings :=
              if qtc > 500 then
                [⟨.error, "QTc >500 ms is associated with high risk of torsades de pointes. Review medications and consider discontinuation of QT-prolonging drugs.", none⟩]
              else if qtc > 480 then
                [⟨.warning, "QTc >480 ms (men) or >470 ms (women) is prolonged. Review medications for QT-prolonging effects.", none⟩]
              else if qtc > 450 then
                [⟨.warning, "QTc >450 ms (men) or >470 ms (women) may be prolonged. Monitor and review medications.", none⟩]
              else [] }

open Classical in
/-- Modelled from the amended spec: the three QTc formulas with the
coefficient 0.154 the source actually uses in the Framingham branch
(the claim's 154 is refuted below); any formula name other than the
three falls to the Framingham branch exactly as in the source. -/
noncomputable def qtcSpecFormula (formula : String) (qt rrSec : ℝ) : ℝ :=
  if formula = "bazett" then qt / Real.sqrt rrSec
  else if formula = "fridericia" then qt / jsCbrt rrSec
  else qt + 0.154 * (1 - rrSec)

/-- calculateGlasgowComaScale of `categories/missing-critical.ts`: each
sub-score is read with a full-normal default (`|| 4`, `|| 5`, `|| 6`),
range-checked, and summed. -/
def calculateGlasgowComaScale (p : Params) : Except String CalcResult :=
  let eyeOpening := jsOrNum p "eyeOpening" 4
  let verbalResponse := jsOrNum p "verbalResponse" 5
  let motorResponse := jsOrNum p "motorResponse" 6
  if eyeOpening < 1 ∨ eyeOpening > 4 then .error "Eye opening score must be 1-4"
  else if verbalResponse < 1 ∨ verbalResponse > 5 then .error "Verbal response score must be 1-5"
  else if motorResponse < 1 ∨ motorResponse > 6 then .error "Motor response score must be 1-6"
  else
    let gcs := eyeOpening + verbalResponse + motorResponse
    .ok { value := some gcs
        , unit := "points"
        , interpretation :=
            if gcs ≤ 8 then "Severe brain injury - consider intubation"
            else if gcs ≤ 12 then "Moderate brain injury"
            else "Mild or no brain injury"
        , warnings := [] }

/-- Modelled from the claim: the Glasgow Coma Scale as C6 describes it,
with every missing sub-score defaulting to 0 before the formula runs. -/
def gcsSpecZeroDefault (p : Params) : Except String CalcResult :=
  let eyeOpening := jsOrNum p "eyeOpening" 0
  let verbalResponse := jsOrNum p "verbalResponse" 0
  let motorResponse := jsOrNum p "motorResponse" 0
  if eyeOpening < 1 ∨ eyeOpening > 4 then .error "Eye opening score must be 1-4"
  else if verbalResponse < 1 ∨ verbalResponse > 5 then .error "Verbal response score must be 1-5"
  else if motorResponse < 1 ∨ motorResponse > 6 then .error "Motor response score must be 1-6"
  else
    let gcs := eyeOpening + verbalResponse + motorResponse
    .ok { value := some gcs
        , unit := "points"
        , interpretation :=
            if gcs ≤ 8 then "Severe brain injury - consider intubation"
            else if gcs ≤ 12 then "Moderate brain injury"
            else "Mild or no brain injury"
        , warnings := [] }

/-- The static MAX_DAILY_DOSES table of `safety/overdose.ts` (per-drug
mg/kg ceiling and its notes string). -/
def MAX_DAILY_DOSES (drug : String) : Option (ℚ × String) :=
  if drug = "acetaminophen" then
    some (75, "Maximum 4g/day in adults, 75 mg/kg/day in children")
  else if drug = "ibuprofen" then
    some (40, "Maximum 2400 mg/day in adults, 40 mg/kg/day in children")
  else if drug = "amoxicillin" then
    some (90, "Maximum 3g/day in adults, 90 mg/kg/day in children")
  else none

/-- checkOverdose of `safety/overdose.ts`: error above the per-drug
ceiling, warning above 90% of it.  The `totalDoseMg`/`maxTotalDoseMg`
locals of the source are computed but never used and are omitted; the
weight argument is kept for signature fidelity. -/
def checkOverdose (drugName : String) (doseMgKg : Option ℚ) (_weightKg : Option ℚ) :
    List SafetyWarning :=
  match MAX_DAILY_DOSES (jsToLower drugName) with
  | none => []
  | some (mgKg, notes) =>
    if optGt doseMgKg mgKg then
      [⟨.error, "Dose " ++ jsShowRaw doseMgKg ++ " mg/kg exceeds maximum recommended dose of " ++
        toString mgKg ++ " mg/kg for " ++ drugName ++ ". " ++ notes ++
        ". DO NOT ADMINISTER without clinical review.", some .overdose⟩]
    else if optGt doseMgKg (mgKg * 0.9) then
      [⟨.warning, "Dose " ++ jsShowRaw doseMgKg ++ " mg/kg is approaching maximum recommended dose of " ++
        toString mgKg ++ " mg/kg for " ++ drugName ++ ". Please verify.", some .overdose⟩]
    else []

/-- checkExtremeDose of `safety/overdose.ts`: the drug-agnostic safety
net, error above 100 mg/kg, warning above 50 mg/kg. -/
def checkExtremeDose (doseMgKg : Option ℚ) : List SafetyWarning :=
  if optGt doseMgKg 100 then
    [⟨.error, "Dose " ++ jsShowRaw doseMgKg ++ " mg/kg is extremely high (>100 mg/kg). Please verify calculation and drug name. DO NOT ADMINISTER without clinical review.", some .overdose⟩]
  else if optGt doseMgKg 50 then
    [⟨.warning, "Dose " ++ jsShowRaw doseMgKg ++ " mg/kg is very high (>50 mg/kg). Please verify calculation and drug name.", some .overdose⟩]
  else []

/-- getPregnancyLactationWarning of `safety/pregnancy.ts`. -/
def getPregnancyLactationWarning : SafetyWarning :=
  ⟨.info, "If patient is pregnant or lactating, verify drug safety and dosing recommendations. Many drugs require special consideration in these populations.", some .pregnancy⟩

/-- calculatePediatricDosingWeight of `categories/dosing.ts`: validates
weight and age against the hard range tables and the pediatric bands,
computes `dosePerKg × weight` rounded to 2 decimals (`NaN`, i.e. `none`,
when either input is absent), and layers the overdose, extreme-dose and
pregnancy advisors plus the age-band note onto the warnings. -/
def calculatePediatricDosingWeight (p : Params) : Except String CalcResult :=
  let weight := getNum p "weight"
  let age := getNum p "age"
  let dosePerKg := getNum p "dosePerKg"
  let drugName := jsOrStr p "drugName" "medication"
  let isPregnant := jsOrBool p "isPregnant"
  let isLactating := jsOrBool p "isLactating"
  let weightValidation := validateWeight weight
  if weightValidation.valid = false then .error (weightValidation.error.getD "") else
  let ageValidation := validateAge age
  if ageValidation.valid = false then .error (ageValidation.error.getD "") else
  match validatePediatricDosing age weight with
  | .error e => .error e
  | .ok pediatricValidation =>
    if pediatricValidation.valid = false then
      .error ("Pediatric validation errors: " ++
        String.intercalate ", " pediatricValidation.errors)
    else
      let totalDose : Option ℚ := do
        let d ← dosePerKg
        let w ← weight
        pure (d * w)
      let roundedDose : Option ℚ := totalDose.map (fun t => ((jsRoundQ (t * 100) : ℚ) / 100))
      match getPediatricAgeInfoN age with
      | .error e => .error e
      | .ok ageInfo =>
        .ok { value := roundedDose
            , unit := "mg"
            , interpretation := "Total dose: " ++ jsShowNum roundedDose ++ " mg (" ++
                jsShowRaw dosePerKg ++ " mg/kg × " ++ jsShowRaw weight ++ " kg)"
            , warnings :=
                warnList weightValidation.warning ++ warnList ageValidation.warning ++
                pediatricValidation.warnings.map (fun w => ⟨.warning, w, none⟩) ++
                checkOverdose drugName dosePerKg weight ++
                checkExtremeDose dosePerKg ++
                (if isPregnant || isLactating then [getPregnancyLactationWarning] else []) ++
                [⟨.info, "Patient age group: " ++ ageInfo.description ++ " (" ++
                  ageInfo.ageRange ++ "). Pediatric dosing may require age-specific considerations.", some .pediatric⟩] }

/-- ExtremeValueCheck of `validators/extremes.ts`. -/
structure ExtremeValueCheck where
  isExtreme : Bool
  severity : WLevel
  message : String
deriving DecidableEq, Repr

/-- checkExtremeValues of `validators/extremes.ts`: the cross-parameter
sanity sweep over weight, height, age and creatinine; absent or
non-numeric fields are skipped. -/
def checkExtremeValues (p : Params) : List ExtremeValueCheck :=
  (match getNum p "weight" with
   | none => []
   | some w =>
     (if w > 500 then
       [⟨true, .error, "Weight " ++ toString w ++ " kg is extremely high (>500 kg). Please verify input."⟩]
      else if w > 200 then
       [⟨true, .warning, "Weight " ++ toString w ++ " kg is very high (>200 kg). Please verify."⟩]
      else []) ++
     (if w < 1/2 then
       [⟨true, .error, "Weight " ++ toString w ++ " kg is extremely low (<0.5 kg). Please verify input."⟩]
      else [])) ++
  (match getNum p "height" with
   | none => []
   | some h =>
     (if h > 250 then
       [⟨true, .error, "Height " ++ toString h ++ " cm is extremely high (>250 cm). Please verify input."⟩]
      else if h > 220 then
       [⟨true, .warning, "Height " ++ toString h ++ " cm is very high (>220 cm). Please verify."⟩]
      else []) ++
     (if h < 30 then
       [⟨true, .error, "Height " ++ toString h ++ " cm is extremely low (<30 cm). Please verify input."⟩]
      else [])) ++
  (match getNum p "age" with
   | none => []
   | some a =>
     (if a > 120 then
       [⟨true, .warning, "Age " ++ toString a ++ " years is very high (>120 years). Please verify."⟩]
      else []) ++
     (if a < 0 then [⟨true, .error, "Age cannot be negative."⟩] else [])) ++
  (match getNum p "creatinine" with
   | none => []
   | some c =>
     (if c > 15 then
       [⟨true, .warning, "Creatinine " ++ toString c ++ " mg/dL is very high (>15 mg/dL). Please verify and consider acute kidney injury."⟩]
      else []) ++
     (if c < 1/10 then
       [⟨true, .warning, "Creatinine " ++ toString c ++ " mg/dL is very low (<0.1 mg/dL). Please verify."⟩]
      else []))

/-- validatePositiveNumbers of `validators/extremes.ts`: one error
string per numeric parameter below zero, whatever its name. -/
def validatePositiveNumbers (p : Params) : List String :=
  p.filterMap (fun kv =>
    match kv.2 with
    | .num q =>
      if q < 0 then some (kv.1 ++ " cannot be negative (received: " ++ toString q ++ ")")
      else none
    | _ => none)

/-- checkContraindications of `safety/contraindications.ts`: the
creatinine-clearance caveats and the CHADS2-VASc atrial-fibrillation
note. -/
def checkContraindications (calculatorType : String) (p : Params) : List SafetyWarning :=
  (if calculatorType = "creatinine-clearance" then
    (if optGt (getNum p "creatinine") 5 then
      [⟨.warning, "Cockcroft-Gault formula may not be accurate in unstable renal function or acute kidney injury. Consider alternative methods.", some .contraindication⟩]
     else []) ++
    (if optLt (getNum p "age") 18 then
      [⟨.warning, "Cockcroft-Gault formula is validated for adults (≥18 years). For pediatric patients, consider Schwartz formula or other pediatric-specific methods.", some .contraindication⟩]
     else []) ++
    (if optGt (getNum p "age") 80 then
      [⟨.info, "Cockcroft-Gault formula may be less accurate in elderly patients (>80 years). Consider clinical context.", some .contraindication⟩]
     else [])
   else []) ++
  (if calculatorType = "chads2-vasc" then
    [⟨.info, "CHADS2-VASc score is validated for patients with atrial fibrillation. Ensure patient has confirmed AF before using this score.", some .contraindication⟩]
   else [])

/-- executeCalculator of `calculators/interface.ts`: negative-value
gate, extreme-value gate, formula invocation, then the merge of the
formula's warnings with the extreme warnings and the contraindication
advisories.  The rendered `formattedOutput` string (formatting plus the
static disclaimer) carries no logic and is omitted. -/
def executeCalculator (calculatorType : String) (parameters : Params)
    (calculateFn : Params → Except String CalcResult) : Except String CalcResult :=
  let positiveErrors := validatePositiveNumbers parameters
  if positiveErrors.isEmpty = false then
    .error ("Validation errors: " ++ String.intercalate ", " positiveErrors)
  else
    let extremeChecks := checkExtremeValues parameters
    let errors := extremeChecks.filter (fun c => decide (c.severity = WLevel.error))
    if errors.isEmpty = false then
      .error ("Extreme value errors: " ++
        String.intercalate ", " (errors.map (fun e => e.message)))
    else
      match calculateFn parameters with
      | .error e => .error e
      | .ok result =>
        .ok { result with warnings := result.warnings ++
            ((extremeChecks.filter (fun c => decide (c.severity = WLevel.warning))).map
              (fun c => ⟨.warning, c.message, none⟩)) ++
            checkContraindications calculatorType parameters }

/-- AuditLogEntry of `audit/logger.ts`.  The wall-clock `timestamp` and
the optional `sessionId` carry no logic and are omitted; `output` is the
logged numeric result (`none` both for a failed run and for a `NaN`
result). -/
structure AuditLogEntry where
  calculatorType : String
  inputs : Params
  output : Option ℚ := none
  error : Option String := none
deriving DecidableEq, Repr

/-- MAX_LOGS of `audit/logger.ts`. -/
def MAX_LOGS : ℕ := 1000

/-- The sensitiveFields list of sanitizeInputs. -/
def sensitiveFields : List String :=
  ["patientName", "patientId", "mrn", "ssn", "dateOfBirth", "address", "phone", "email"]

/-- Decidable prefix test on lists (JS `String.startsWith` over the
character lists). -/
def prefixCheck {α : Type} [DecidableEq α] : List α → List α → Bool
  | [], _ => true
  | _ :: _, [] => false
  | a :: as, b :: bs => decide (a = b) && prefixCheck as bs

/-- Decidable contiguous-substring test on lists (JS
`String.includes` over the character lists). -/
def infixCheck {α : Type} [DecidableEq α] (needle : List α) : List α → Bool
  | [] => prefixCheck needle []
  | b :: bs => prefixCheck needle (b :: bs) || infixCheck needle bs

/-- sanitizeInputs of `audit/logger.ts`: drops any key containing a
sensitive field name (case-insensitively); the number/string/boolean
filter of the source keeps every `PValue`, so only the key filter
remains. -/
def sanitizeInputs (inputs : Params) : Params :=
  inputs.filter (fun kv =>
    !(sensitiveFields.any (fun f => infixCheck (jsToLower f).toList (jsToLower kv.1).toList)))

/-- The append-and-evict step of logCalculatorUsage: push the entry,
then `shift()` the oldest entry off once the length exceeds MAX_LOGS. -/
def pushBounded (logs : List AuditLogEntry) (entry : AuditLogEntry) : List AuditLogEntry :=
  let logs' := logs ++ [entry]
  if logs'.length > MAX_LOGS then logs'.tail else logs'

/-- logCalculatorUsage of `audit/logger.ts`. -/
def logCalculatorUsage (logs : List AuditLogEntry) (calculatorType : String)
    (inputs : Params) (output : Option ℚ) (error : Option String) : List AuditLogEntry :=
  pushBounded logs
    { calculatorType := calculatorType, inputs := sanitizeInputs inputs,
      output := output, error := error }

/-- JS `Array.prototype.slice(start)` for an integer start: a negative
start counts from the end (clamped at 0), a nonnegative start drops that
many elements. -/
def jsSlice {α : Type} (l : List α) (start : ℤ) : List α :=
  if start < 0 then l.drop (l.length - (-start).toNat)
  else l.drop (min start.toNat l.length)

/-- getAuditLogs of `audit/logger.ts`: `auditLogs.slice(-limit)`.  Note
that `slice(-0)` is `slice(0)`, the whole array. -/
def getAuditLogs (logs : List AuditLogEntry) (limit : ℤ) : List AuditLogEntry :=
  jsSlice logs (-limit)

open Classical in
/-- The CALCULATORS registry of `calculators/index.ts`, restricted to
the calculators embedded in this development (a subset of the source's
19 keys; every key present here maps to the same formula function as in
the source, and the claims only exercise these keys or unknown ones). -/
noncomputable def CALCULATORS (calculatorType : String) :
    Option (Params → Except String CalcResult) :=
  if calculatorType = "chads2-vasc" then some calculateCHADS2VASc
  else if calculatorType = "creatinine-clearance" then some calculateCreatinineClearance
  else if calculatorType = "pediatric-dosing-weight" then some calculatePediatricDosingWeight
  else if calculatorType = "mdrd" then some calculateMDRD
  else if calculatorType = "ckd-epi" then some calculateCKDEPI
  else if calculatorType = "meld" then some calculateMELD
  else if calculatorType = "qtc-correction" then some calculateQTcCorrection
  else if calculatorType = "glasgow-coma-scale" then some calculateGlasgowComaScale
  else none

/-- executeCalculatorWithSafety of `calculators/index.ts`: the
unknown-type throw happens before the try/catch, so it is not logged;
a success is logged with the numeric output, a failure (thrown inside
executeCalculator) is logged with the error message. -/
noncomputable def executeCalculatorWithSafety (logs : List AuditLogEntry)
    (calculatorType : String) (parameters : Params) :
    Except String CalcResult × List AuditLogEntry :=
  match CALCULATORS calculatorType with
  | none => (.error ("Unknown calculator type: " ++ calculatorType), logs)
  | some calculator =>
    match executeCalculator calculatorType parameters calculator with
    | .ok response =>
      (.ok response, logCalculatorUsage logs calculatorType parameters response.value none)
    | .error e =>
      (.error e, logCalculatorUsage logs calculatorType parameters none (some e))

/-- Parameter bag of a pediatric weight-based dosing invocation. -/
def mkPedParams (weight age dosePerKg : ℚ) (drugName : String) : Params :=
  [("weight", .num weight), ("age", .num age), ("dosePerKg", .num dosePerKg),
   ("drugName", .str drugName)]

/-- Sample audit entry used by concrete checks. -/
def sampleEntry : AuditLogEntry :=
  { calculatorType := "bmi", inputs := [], output := none, error := none }

theorem jsRound_ratCast (q : ℚ) : jsRound (q : ℝ) = jsRoundQ q := by
  unfold jsRound jsRoundQ
  rw [show ((q : ℝ) + 1/2) = ((q + 1/2 : ℚ) : ℝ) by push_cast; ring, Rat.floor_cast]

/-- Helper: negative ages make the classifier throw. -/
theorem classifier_error {a : ℚ} (ha : a < 0) :
    getPediatricAgeGroup a = .error "Age cannot be negative" := by
  unfold getPediatricAgeGroup
  rw [if_pos ha]

/-- Helper: for nonnegative ages the classifier lands exactly in the
spec band. -/
theorem classifier_ok {a : ℚ} (ha : 0 ≤ a) :
    getPediatricAgeGroup a = .ok (pediatricSpecBand a) := by
  unfold getPediatricAgeGroup pediatricSpecBand
  rw [if_neg (by linarith)]
  dsimp only
  split_ifs <;> rfl

/-- C9: the pediatric classifier converts age to days as years × 365.25
and bands it at ≤28 days (neonate), ≤365.25 days (infant), <13 years
(child), <18 years (adolescent), adult otherwise; negative age raises an
error; 0.05 years is a neonate, 0.09 an infant, 12.99 a child and 13.0
an adolescent. -/
theorem pediatric_classifier_bands :
    (∀ a : ℚ, a < 0 → getPediatricAgeGroup a = .error "Age cannot be negative") ∧
    (∀ a : ℚ, 0 ≤ a → getPediatricAgeGroup a = .ok (pediatricSpecBand a)) ∧
    getPediatricAgeGroup 0.05 = .ok .neonate ∧
    getPediatricAgeGroup 0.09 = .ok .infant ∧
    getPediatricAgeGroup 12.99 = .ok .child ∧
    getPediatricAgeGroup 13 = .ok .adolescent := by
  refine ⟨fun a ha => classifier_error ha, fun a ha => classifier_ok ha,
    by unfold getPediatricAgeGroup; norm_num,
    by unfold getPediatricAgeGroup; norm_num,
    by unfold getPediatricAgeGroup; norm_num,
    by unfold getPediatricAgeGroup; norm_num⟩

/-- Witness for C9 at age 7 years. -/
theorem pediatric_classifier_bands_witness :
    getPediatricAgeGroup 7 = .ok (pediatricSpecBand 7) :=
  pediatric_classifier_bands.2.1 7 (by norm_num)

/-- Setting a boolean contributor cannot lower its points. -/
theorem boolPts_le {a b : Bool} (h : a = true → b = true) (k : ℕ) :
    (if a then k else 0) ≤ (if b then k else 0) := by
  cases a <;> cases b <;> simp_all

/-- The validateRange verdict is exactly the hard-bound test. -/
theorem validateRange_valid (v : Option ℚ) (nm : String) (rng : ParameterRange) :
    (validateRange v nm rng).valid = !(optLt v rng.min || optGt v rng.max) := by
  unfold validateRange
  cases h : (optLt v rng.min || optGt v rng.max) with
  | true => simp
  | false =>
    simp only [Bool.false_eq_true, if_false, Bool.not_false]
    split_ifs <;> rfl

/-- C4: for every age in the hard range, the returned CHA₂DS₂-VASc value
is the flag-sum score, that score never decreases when flags flip from
false to true, and it never exceeds 9. -/
theorem chads2vasc_monotone_and_bounded :
    ∀ (age : ℚ) (f g : ChadsFlags), 0 ≤ age → age ≤ 150 →
      (calculateCHADS2VASc (mkChadsParams age f)).map (fun r => r.value) =
        .ok (some ((chadsScore (some age) f : ℕ) : ℚ)) ∧
      (flagsLe f g → chadsScore (some age) f ≤ chadsScore (some age) g) ∧
      chadsScore (some age) f ≤ 9 := by
  intro age f g h0 h150
  have hval : (validateAge (some age)).valid = true := by
    rw [validateAge, validateRange_valid]
    simp only [optLt, optGt, ageRange, Bool.not_eq_true', Bool.or_eq_false_iff,
      decide_eq_false_iff_not, not_lt]
    exact ⟨h0, h150⟩
  refine ⟨?_, ?_, ?_⟩
  · have e1 : getNum (mkChadsParams age f) "age" = some age := rfl
    have e2 : jsOrBool (mkChadsParams age f) "hasCHF" = f.chf := rfl
    have e3 : jsOrBool (mkChadsParams age f) "hasHypertension" = f.htn := rfl
    have e4 : jsOrBool (mkChadsParams age f) "hasDiabetes" = f.dm := rfl
    have e5 : jsOrBool (mkChadsParams age f) "hasStrokeTIA" = f.stroke := rfl
    have e6 : jsOrBool (mkChadsParams age f) "hasVascularDisease" = f.vasc := rfl
    have e7 : ((getStr (mkChadsParams age f) "gender" == some "female") ||
        jsOrBool (mkChadsParams age f) "isFemale") = f.female := rfl
    unfold calculateCHADS2VASc
    rw [e1, e2, e3, e4, e5, e6, e7]
    dsimp only
    rw [hval]
    simp [Except.map]
  · intro hle
    obtain ⟨h1, h2, h3, h4, h5, h6⟩ := hle
    unfold chadsScore
    exact Nat.add_le_add (Nat.add_le_add (Nat.add_le_add (Nat.add_le_add
      (Nat.add_le_add (Nat.add_le_add (boolPts_le h1 1) (boolPts_le h2 1)) le_rfl)
      (boolPts_le h3 1)) (boolPts_le h4 2)) (boolPts_le h5 1)) (boolPts_le h6 1)
  · unfold chadsScore
    have hb : ∀ (b : Bool) (k : ℕ), (if b then k else 0) ≤ k := by
      intro b k; cases b <;> simp
    have hage : (if optGe (some age) 75 then 2
        else if optGe (some age) 65 then 1 else 0) ≤ 2 := by
      split_ifs <;> omega
    calc (if f.chf then 1 else 0) + (if f.htn then 1 else 0) +
        (if optGe (some age) 75 then 2 else if optGe (some age) 65 then 1 else 0) +
        (if f.dm then 1 else 0) + (if f.stroke then 2 else 0) +
        (if f.vasc then 1 else 0) + (if f.female then 1 else 0)
        ≤ 1 + 1 + 2 + 1 + 2 + 1 + 1 :=
          Nat.add_le_add (Nat.add_le_add (Nat.add_le_add (Nat.add_le_add
            (Nat.add_le_add (Nat.add_le_add (hb _ 1) (hb _ 1)) hage)
            (hb _ 1)) (hb _ 2)) (hb _ 1)) (hb _ 1)
      _ ≤ 9 := by norm_num

/-- Witness for C4: age 70, flipping the CHF flag. -/
theorem chads2vasc_monotone_and_bounded_witness :
    (calculateCHADS2VASc (mkChadsParams 70 ⟨false, false, false, false, false, false⟩)).map
        (fun r => r.value) =
      .ok (some ((chadsScore (some 70) ⟨false, false, false, false, false, false⟩ : ℕ) : ℚ)) ∧
    chadsScore (some 70) ⟨false, false, false, false, false, false⟩ ≤
      chadsScore (some 70) ⟨true, false, false, false, false, false⟩ ∧
    chadsScore (some 70) ⟨false, false, false, false, false, false⟩ ≤ 9 := by
  have h := chads2vasc_monotone_and_bounded 70
    ⟨false, false, false, false, false, false⟩
    ⟨true, false, false, false, false, false⟩ (by norm_num) (by norm_num)
  exact ⟨h.1, h.2.1 (by simp [flagsLe]), h.2.2⟩

/-- Helper: a `(params.k as number) || 0` read of a key that is present
hands back the stored value (also when it is the falsy `0`). -/
theorem jsOrNum_some_zero {p : Params} {k : String} {q : ℚ}
    (h : getNum p k = some q) : jsOrNum p k 0 = q := by
  unfold jsOrNum
  rw [h]
  dsimp only
  split_ifs with h0
  · rw [h0]
  · rfl

/-- Helper: a `|| d` read of a present nonzero value hands it back. -/
theorem jsOrNum_some_ne {p : Params} {k : String} {q d : ℚ}
    (h : getNum p k = some q) (hq : q ≠ 0) : jsOrNum p k d = q := by
  unfold jsOrNum
  rw [h]
  dsimp only
  rw [if_neg hq]

/-- C3: with every input inside the hard range tables, the three renal
calculators raise their adult-only domain errors exactly when age < 18
and return a result exactly when age ≥ 18. -/
theorem renal_adult_only_gate :
    ∀ (age weight creatinine : ℚ) (female black : Bool),
      0 ≤ age → age ≤ 150 → 10 ≤ weight → weight ≤ 500 →
      1/10 ≤ creatinine → creatinine ≤ 20 →
      ((age < 18 →
        calculateCreatinineClearance (mkRenalParams age weight creatinine female black) =
          .error "Cockcroft-Gault formula is validated for adults (≥18 years). For pediatric patients, consider Schwartz formula." ∧
        calculateMDRD (mkRenalParams age weight creatinine female black) =
          .error "MDRD equation is validated for adults (≥18 years)" ∧
        calculateCKDEPI (mkRenalParams age weight creatinine female black) =
          .error "CKD-EPI equation is validated for adults (≥18 years)") ∧
      (18 ≤ age →
        isOkE (calculateCreatinineClearance (mkRenalParams age weight creatinine female black)) = true ∧
        isOkE (calculateMDRD (mkRenalParams age weight creatinine female black)) = true ∧
        isOkE (calculateCKDEPI (mkRenalParams age weight creatinine female black)) = true)) := by
  intro age weight creatinine female black ha0 ha1 hw0 hw1 hc0 hc1
  have hvA : (validateAge (some age)).valid = true := by
    rw [validateAge, validateRange_valid]
    simp only [optLt, optGt, ageRange, Bool.not_eq_true', Bool.or_eq_false_iff,
      decide_eq_false_iff_not, not_lt]
    exact ⟨ha0, ha1⟩
  have hvW : (validateWeight (some weight)).valid = true := by
    rw [validateWeight, validateRange_valid]
    simp only [optLt, optGt, weightRange, Bool.not_eq_true', Bool.or_eq_false_iff,
      decide_eq_false_iff_not, not_lt]
    exact ⟨hw0, hw1⟩
  have hvC : (validateCreatinine (some creatinine)).valid = true := by
    rw [validateCreatinine, validateRange_valid]
    simp only [optLt, optGt, creatinineRange, Bool.not_eq_true', Bool.or_eq_false_iff,
      decide_eq_false_iff_not, not_lt]
    exact ⟨hc0, hc1⟩
  have eA : getNum (mkRenalParams age weight creatinine female black) "age" = some age := rfl
  have eW : getNum (mkRenalParams age weight creatinine female black) "weight" = some weight := rfl
  have eC : getNum (mkRenalParams age weight creatinine female black) "creatinine" =
      some creatinine := rfl
  have eA0 : jsOrNum (mkRenalParams age weight creatinine female black) "age" 0 = age :=
    jsOrNum_some_zero eA
  have eC0 : jsOrNum (mkRenalParams age weight creatinine female black) "creatinine" 0 =
      creatinine := jsOrNum_some_zero eC
  constructor
  · intro hlt
    have hflag : optLt (some age) 18 = true := by
      simp only [optLt, decide_eq_true_eq]
      exact hlt
    refine ⟨?_, ?_, ?_⟩
    · unfold calculateCreatinineClearance
      rw [eA, eW, eC]
      dsimp only
      rw [hvA, hvW, hvC, hflag]
      simp
    · unfold calculateMDRD
      rw [eA0, eC0]
      dsimp only
      rw [hvA, hvC, if_pos hlt]
      simp
    · unfold calculateCKDEPI
      rw [eA0, eC0]
      dsimp only
      rw [hvA, hvC, if_pos hlt]
      simp
  · intro hge
    have hflag : optLt (some age) 18 = false := by
      simp only [optLt, decide_eq_false_iff_not, not_lt]
      exact hge
    refine ⟨?_, ?_, ?_⟩
    · unfold calculateCreatinineClearance
      rw [eA, eW, eC]
      dsimp only
      rw [hvA, hvW, hvC, hflag]
      simp [isOkE]
    · unfold calculateMDRD
      rw [eA0, eC0]
      dsimp only
      rw [hvA, hvC, if_neg (not_lt.mpr hge)]
      simp [isOkE]
    · unfold calculateCKDEPI
      rw [eA0, eC0]
      dsimp only
      rw [hvA, hvC, if_neg (not_lt.mpr hge)]
      simp [isOkE]

/-- Witness for C3 at age 17 (all three reject) and age 18 would go
through the same theorem; the applied instance uses age 17. -/
theorem renal_adult_only_gate_witness :
    calculateMDRD (mkRenalParams 17 70 1 false false) =
      .error "MDRD equation is validated for adults (≥18 years)" :=
  ((renal_adult_only_gate 17 70 1 false false (by norm_num) (by norm_num) (by norm_num)
    (by norm_num) (by norm_num) (by norm_num)).1 (by norm_num)).2.1

/-- C1: for every positive bilirubin, INR and creatinine the returned
MELD value is the spec formula rounded to the nearest integer, it is an
integer, and it is clamped to at most 40. -/
theorem meld_matches_spec_and_capped :
    ∀ (bilirubin inr creatinine : ℚ) (onDialysis : Bool),
      0 < bilirubin → 0 < inr → 0 < creatinine →
      (calculateMELD (mkMeldParams bilirubin inr creatinine onDialysis)).map
          (fun r => r.value) =
        .ok (some ((meldSpec bilirubin inr creatinine onDialysis : ℤ) : ℚ)) ∧
      meldSpec bilirubin inr creatinine onDialysis ≤ 40 := by
  intro bilirubin inr creatinine onDialysis hb hi hc
  have e1 : jsOrNum (mkMeldParams bilirubin inr creatinine onDialysis) "bilirubin" 0 =
      bilirubin := jsOrNum_some_zero rfl
  have e2 : jsOrNum (mkMeldParams bilirubin inr creatinine onDialysis) "inr" 0 = inr :=
    jsOrNum_some_zero rfl
  have e3 : jsOrNum (mkMeldParams bilirubin inr creatinine onDialysis) "creatinine" 0 =
      creatinine := jsOrNum_some_zero rfl
  have e4 : jsOrBool (mkMeldParams bilirubin inr creatinine onDialysis) "onDialysis" =
      onDialysis := rfl
  constructor
  · unfold calculateMELD
    rw [e1, e2, e3, e4]
    dsimp only
    rw [if_neg (by push_neg; exact ⟨hb, hi, hc⟩)]
    simp only [Except.map]
    unfold meldSpec
    congr 1
    congr 1
    have : ∀ n : ℤ, (if n > 40 then (40 : ℤ) else n) = min n 40 := by
      intro n
      split_ifs <;> omega
    rw [this]
  · exact min_le_right _ 40

/-- Witness for C1 at bilirubin 2, INR 2, creatinine 2, on dialysis. -/
theorem meld_matches_spec_and_capped_witness :
    (calculateMELD (mkMeldParams 2 2 2 true)).map (fun r => r.value) =
      .ok (some ((meldSpec 2 2 2 true : ℤ) : ℚ)) ∧
    meldSpec 2 2 2 true ≤ 40 :=
  meld_matches_spec_and_capped 2 2 2 true (by norm_num) (by norm_num) (by norm_num)

/-- Bound used at the concrete QTc check: `√(3/4) > 0.8648`. -/
theorem sqrt34_lb : (0.8648 : ℝ) < Real.sqrt (3 / 4) := by
  nlinarith [Real.sq_sqrt (show (0:ℝ) ≤ 3/4 by norm_num), Real.sqrt_nonneg (3/4 : ℝ)]

/-- Bound used at the concrete QTc check: `√(3/4) < 0.8661`. -/
theorem sqrt34_ub : Real.sqrt (3 / 4) < (0.8661 : ℝ) := by
  nlinarith [Real.sq_sqrt (show (0:ℝ) ≤ 3/4 by norm_num), Real.sqrt_nonneg (3/4 : ℝ)]

/-- Bazett at qt = 450 ms and RR = 750 ms rounds to 520. -/
theorem qtc450_rounds : jsRound ((450 : ℝ) / Real.sqrt (3 / 4)) = 520 := by
  have hpos : (0:ℝ) < Real.sqrt (3/4) := lt_trans (by norm_num) sqrt34_lb
  have h1 : (519.5 : ℝ) ≤ 450 / Real.sqrt (3/4) := by
    rw [le_div_iff₀ hpos]
    nlinarith [sqrt34_ub]
  have h2 : (450 : ℝ) / Real.sqrt (3/4) < 520.5 := by
    rw [div_lt_iff₀ hpos]
    nlinarith [sqrt34_lb]
  unfold jsRound
  rw [Int.floor_eq_iff]
  constructor
  · push_cast
    linarith
  · push_cast
    linarith

/-- Bazett at qt = 450 ms and RR = 750 ms exceeds the 500 ms band. -/
theorem qtc450_high : (500 : ℝ) < 450 / Real.sqrt (3 / 4) := by
  have hpos : (0:ℝ) < Real.sqrt (3/4) := lt_trans (by norm_num) sqrt34_lb
  rw [lt_div_iff₀ hpos]
  nlinarith [sqrt34_ub]

/-- Counterexample to C2 as stated: with qt = 450, rr = 500 and the
Framingham formula, the code returns 450 (coefficient 0.154), while the
claim's `QT + 154 × (1 − RR_sec)` would round to 527. -/
theorem qtc_framingham_coefficient_cex :
    (calculateQTcCorrection
        [("qt", .num 450), ("rr", .num 500), ("formula", .str "framingham")]).map
      (fun r => r.value) = .ok (some 450) ∧
    jsRound ((450 : ℝ) + 154 * (1 - 500 / 1000)) = 527 ∧ (450 : ℚ) ≠ 527 := by
  refine ⟨?_, ?_, by norm_num⟩
  · unfold calculateQTcCorrection
    rw [show jsOrNum [("qt", PValue.num 450), ("rr", PValue.num 500),
        ("formula", PValue.str "framingham")] "qt" 0 = 450 from rfl,
      show jsOrNum [("qt", PValue.num 450), ("rr", PValue.num 500),
        ("formula", PValue.str "framingham")] "rr" 0 = 500 from rfl,
      show jsOrNum [("qt", PValue.num 450), ("rr", PValue.num 500),
        ("formula", PValue.str "framingham")] "heartRate" 0 = 0 from rfl,
      show jsOrStr [("qt", PValue.num 450), ("rr", PValue.num 500),
        ("formula", PValue.str "framingham")] "formula" "bazett" = "framingham" from rfl]
    dsimp only
    rw [if_neg (by norm_num : ¬ (450 : ℚ) ≤ 0),
      if_neg (by norm_num : ¬ ((500 : ℚ) ≤ 0 ∧ (0 : ℚ) < 0))]
    rw [if_neg (by norm_num : ¬ (500 : ℚ) ≤ 0)]
    rw [if_neg (by decide : ¬ ("framingham" : String) = "bazett"),
      if_neg (by decide : ¬ ("framingham" : String) = "fridericia")]
    simp only [Except.map]
    congr 1
    congr 1
    have : ((450 : ℚ) : ℝ) + 0.154 * (1 - (((500 : ℚ) / 1000 : ℚ) : ℝ)) =
        (450077 / 1000 : ℚ) := by
      push_cast
      norm_num
    rw [this, jsRound_ratCast]
    norm_num [jsRoundQ]
  · unfold jsRound
    rw [Int.floor_eq_iff]
    norm_num

/-- C2 amended: RR is derived as 60000/HR when absent, the formula flag
defaults to Bazett, the three formulas are Bazett `QT/√RR_sec`,
Fridericia `QT/∛RR_sec` and Framingham `QT + 0.154×(1−RR_sec)` (the
source coefficient, not the claim's 154), and the concrete 450 ms / 80
bpm Bazett case rounds to 520 and is banded high risk. -/
theorem qtc_correction_amended :
    ∀ (qt rr hr : ℚ), 0 < qt →
      ((0 < hr →
        (calculateQTcCorrection [("qt", .num qt), ("heartRate", .num hr)]).map
            (fun r => r.value) =
          .ok (some ((jsRound (qtcSpecFormula "bazett" (qt : ℝ)
            (((60000 / hr) / 1000 : ℚ) : ℝ)) : ℚ)))) ∧
       (0 < rr → ∀ f : String, f = "bazett" ∨ f = "fridericia" ∨ f = "framingham" →
        (calculateQTcCorrection [("qt", .num qt), ("rr", .num rr), ("formula", .str f)]).map
            (fun r => r.value) =
          .ok (some ((jsRound (qtcSpecFormula f (qt : ℝ) ((rr / 1000 : ℚ) : ℝ)) : ℚ))))) ∧
      calculateQTcCorrection [("qt", .num 450), ("heartRate", .num 80)] =
        .ok { value := some 520
            , unit := "ms"
            , interpretation := "Prolonged QTc - HIGH RISK of torsades de pointes"
            , warnings := [⟨.error, "QTc >500 ms is associated with high risk of torsades de pointes. Review medications and consider discontinuation of QT-prolonging drugs.", none⟩] } := by
  intro qt rr hr hqt
  have hqtne : qt ≠ 0 := ne_of_gt hqt
  constructor
  · constructor
    · intro hhr
      have hhrne : hr ≠ 0 := ne_of_gt hhr
      unfold calculateQTcCorrection
      rw [jsOrNum_some_ne (show getNum [("qt", PValue.num qt), ("heartRate", PValue.num hr)]
          "qt" = some qt from rfl) hqtne,
        show jsOrNum [("qt", PValue.num qt), ("heartRate", PValue.num hr)] "rr" 0 = 0 from rfl,
        jsOrNum_some_ne (show getNum [("qt", PValue.num qt), ("heartRate", PValue.num hr)]
          "heartRate" = some hr from rfl) hhrne,
        show jsOrStr [("qt", PValue.num qt), ("heartRate", PValue.num hr)] "formula" "bazett" =
          "bazett" from rfl]
      dsimp only
      rw [if_neg (not_le.mpr hqt),
        if_pos (show (0 : ℚ) ≤ 0 ∧ (0 : ℚ) < hr from ⟨le_refl 0, hhr⟩)]
      have hrrpos : (0 : ℚ) < 60 / hr * 1000 := by positivity
      rw [if_neg (not_le.mpr hrrpos)]
      simp only [Except.map]
      unfold qtcSpecFormula
      have : (60 / hr * 1000 / 1000 : ℚ) = ((60000 / hr) / 1000 : ℚ) := by
        field_simp
        norm_num
      rw [this]
      simp
    · intro hrr f hf
      have hrrne : rr ≠ 0 := ne_of_gt hrr
      have hfne : f ≠ "" := by
        rcases hf with h | h | h <;> rw [h] <;> decide
      have eform : jsOrStr [("qt", PValue.num qt), ("rr", PValue.num rr),
          ("formula", PValue.str f)] "formula" "bazett" = f := by
        unfold jsOrStr
        rw [show getStr [("qt", PValue.num qt), ("rr", PValue.num rr),
          ("formula", PValue.str f)] "formula" = some f from rfl]
        dsimp only
        rw [if_neg hfne]
      unfold calculateQTcCorrection
      rw [jsOrNum_some_ne (show getNum [("qt", PValue.num qt), ("rr", PValue.num rr),
          ("formula", PValue.str f)] "qt" = some qt from rfl) hqtne,
        jsOrNum_some_ne (show getNum [("qt", PValue.num qt), ("rr", PValue.num rr),
          ("formula", PValue.str f)] "rr" = some rr from rfl) hrrne,
        show jsOrNum [("qt", PValue.num qt), ("rr", PValue.num rr),
          ("formula", PValue.str f)] "heartRate" 0 = 0 from rfl, eform]
      dsimp only
      rw [if_neg (not_le.mpr hqt),
        if_neg (by simp : ¬ (rr ≤ 0 ∧ (0 : ℚ) < 0)),
        if_neg (not_le.mpr hrr)]
      simp only [Except.map]
      unfold qtcSpecFormula
      rcases hf with h | h | h <;> subst h <;> rfl
  · unfold calculateQTcCorrection
    rw [show jsOrNum [("qt", PValue.num 450), ("heartRate", PValue.num 80)] "qt" 0 =
        450 from rfl,
      show jsOrNum [("qt", PValue.num 450), ("heartRate", PValue.num 80)] "rr" 0 = 0 from rfl,
      show jsOrNum [("qt", PValue.num 450), ("heartRate", PValue.num 80)] "heartRate" 0 =
        80 from rfl,
      show jsOrStr [("qt", PValue.num 450), ("heartRate", PValue.num 80)] "formula" "bazett" =
        "bazett" from rfl]
    dsimp only
    rw [if_neg (by norm_num : ¬ (450 : ℚ) ≤ 0),
      if_pos (by norm_num : (0 : ℚ) ≤ 0 ∧ (0 : ℚ) < 80),
      if_neg (by norm_num : ¬ (60 / 80 * 1000 : ℚ) ≤ 0),
      if_pos rfl]
    have hcast : (((60 / 80 * 1000 / 1000 : ℚ)) : ℝ) = (3 / 4 : ℝ) := by
      push_cast
      norm_num
    have hqtcast : ((450 : ℚ) : ℝ) = (450 : ℝ) := by norm_num
    rw [hcast, hqtcast]
    rw [if_pos qtc450_high, if_pos qtc450_high, qtc450_rounds]
    norm_num

/-- Witness for the amended C2: qt = 450, rr = 750, Fridericia. -/
theorem qtc_correction_amended_witness :
    (calculateQTcCorrection
        [("qt", .num 450), ("rr", .num 750), ("formula", .str "fridericia")]).map
      (fun r => r.value) =
    .ok (some ((jsRound (qtcSpecFormula "fridericia" ((450 : ℚ) : ℝ)
      (((750 : ℚ) / 1000 : ℚ) : ℝ)) : ℚ))) :=
  ((qtc_correction_amended 450 750 80 (by norm_num)).1.2 (by norm_num) "fridericia"
    (Or.inr (Or.inl rfl)))

/-- Helper: a lookup skips a binding with a different key. -/
theorem lookupParam_cons_ne {k key : String} (v : PValue) (ps : Params) (h : k ≠ key) :
    lookupParam ((k, v) :: ps) key = lookupParam ps key := by
  simp only [lookupParam]
  rw [if_neg h]

/-- Helper: a numeric read skips a binding with a different key. -/
theorem getNum_cons_ne {k key : String} (v : PValue) (ps : Params) (h : k ≠ key) :
    getNum ((k, v) :: ps) key = getNum ps key := by
  unfold getNum
  rw [lookupParam_cons_ne v ps h]

/-- Helper: a defaulted numeric read skips a different key. -/
theorem jsOrNum_cons_ne {k key : String} (v : PValue) (ps : Params) (d : ℚ) (h : k ≠ key) :
    jsOrNum ((k, v) :: ps) key d = jsOrNum ps key d := by
  unfold jsOrNum
  rw [getNum_cons_ne v ps h]

/-- Helper: a boolean read skips a different key. -/
theorem jsOrBool_cons_ne {k key : String} (v : PValue) (ps : Params) (h : k ≠ key) :
    jsOrBool ((k, v) :: ps) key = jsOrBool ps key := by
  unfold jsOrBool getBool
  rw [lookupParam_cons_ne v ps h]

/-- Helper: a defaulted string read skips a different key. -/
theorem jsOrStr_cons_ne {k key : String} (v : PValue) (ps : Params) (d : String) (h : k ≠ key) :
    jsOrStr ((k, v) :: ps) key d = jsOrStr ps key d := by
  unfold jsOrStr getStr
  rw [lookupParam_cons_ne v ps h]

/-- Counterexample to C6 as stated: with every sub-score key absent the
Glasgow Coma Scale computes 4 + 5 + 6 = 15 — not the 0 defaults the
claim asserts, which (by the calculator's own range checks, modelled in
`gcsSpecZeroDefault`) would have raised an error — and the pediatric
dose with `dosePerKg` absent is `NaN` (`none`), not the 0 mg that a
zero default would give. -/
theorem gcs_default_not_zero_cex :
    calculateGlasgowComaScale [] ≠ gcsSpecZeroDefault [] ∧
    (calculateGlasgowComaScale []).map (fun r => r.value) = .ok (some 15) ∧
    gcsSpecZeroDefault [] = .error "Eye opening score must be 1-4" ∧
    (calculatePediatricDosingWeight [("weight", .num 20), ("age", .num 6)]).map
      (fun r => r.value) = .ok none ∧
    (Except.ok (none : Option ℚ) : Except String (Option ℚ)) ≠ .ok (some 0) := by
  have hg : calculateGlasgowComaScale [] = Except.ok
      { value := some 15, unit := "points",
        interpretation := "Mild or no brain injury", warnings := [] } := by
    simp [calculateGlasgowComaScale, jsOrNum, getNum, lookupParam]
    all_goals norm_num
  have hz : gcsSpecZeroDefault [] = Except.error "Eye opening score must be 1-4" := by
    simp [gcsSpecZeroDefault, jsOrNum, getNum, lookupParam]
  have hp : (calculatePediatricDosingWeight
      [("weight", PValue.num 20), ("age", PValue.num 6)]).map (fun r => r.value) =
      .ok none := by
    simp [calculatePediatricDosingWeight, validatePediatricDosing, getPediatricAgeInfoN,
      getPediatricAgeGroupN, getPediatricAgeGroup, PEDIATRIC_AGE_GROUPS, validateWeight,
      validateAge, validateRange, jsOrStr, jsOrBool, getNum, getStr, getBool, lookupParam,
      optLt, optGt, weightRange, ageRange, Except.map]
    all_goals norm_num
  refine ⟨?_, by rw [hg]; rfl, hz, hp, by simp⟩
  rw [hg, hz]
  simp

/-- C6 amended: extra or unknown keys are ignored (shown for the two
calculators the claim names); boolean reads default to false; but the
numeric defaults are per-formula: the Glasgow sub-scores default to the
full-normal 4/5/6 (absent keys give GCS 15), and the pediatric
`dosePerKg` has no default at all — an absent key propagates as `NaN`,
making the returned dose `none` rather than 0. -/
theorem defaults_amended :
    (∀ (k : String) (v : PValue) (ps : Params),
      k ≠ "eyeOpening" → k ≠ "verbalResponse" → k ≠ "motorResponse" →
      calculateGlasgowComaScale ((k, v) :: ps) = calculateGlasgowComaScale ps) ∧
    (∀ (k : String) (v : PValue) (ps : Params),
      k ≠ "weight" → k ≠ "age" → k ≠ "dosePerKg" → k ≠ "drugName" →
      k ≠ "isPregnant" → k ≠ "isLactating" →
      calculatePediatricDosingWeight ((k, v) :: ps) = calculatePediatricDosingWeight ps) ∧
    (calculateGlasgowComaScale []).map (fun r => r.value) = .ok (some ((4 : ℚ) + 5 + 6)) ∧
    (∀ (ps : Params) (r : CalcResult), getNum ps "dosePerKg" = none →
      calculatePediatricDosingWeight ps = .ok r → r.value = none) ∧
    (∀ (ps : Params) (k : String), getBool ps k = none → jsOrBool ps k = false) := by
  refine ⟨?_, ?_, by rfl, ?_, ?_⟩
  · intro k v ps h1 h2 h3
    unfold calculateGlasgowComaScale
    rw [jsOrNum_cons_ne v ps 4 h1, jsOrNum_cons_ne v ps 5 h2, jsOrNum_cons_ne v ps 6 h3]
  · intro k v ps h1 h2 h3 h4 h5 h6
    unfold calculatePediatricDosingWeight
    rw [getNum_cons_ne v ps h1, getNum_cons_ne v ps h2, getNum_cons_ne v ps h3,
      jsOrStr_cons_ne v ps "medication" h4, jsOrBool_cons_ne v ps h5, jsOrBool_cons_ne v ps h6]
  · intro ps r hd hok
    unfold calculatePediatricDosingWeight at hok
    rw [hd] at hok
    dsimp only at hok
    split at hok
    · simp at hok
    · split at hok
      · simp at hok
      · split at hok
        · simp at hok
        · split at hok
          · simp at hok
          · split at hok
            · simp at hok
            · injection hok with h
              rw [← h]
              rfl
  · intro ps k h
    unfold jsOrBool
    rw [h]
    rfl

/-- Witness for the amended C6: an unknown key is ignored by the GCS
calculator. -/
theorem defaults_amended_witness :
    calculateGlasgowComaScale [("foo", .num 1)] = calculateGlasgowComaScale [] :=
  defaults_amended.1 "foo" (.num 1) [] (by decide) (by decide) (by decide)

/-- Helper: an `if` guarded by the absurd boolean equation collapses. -/
theorem ite_true_eq_false {α : Sort _} (a b : α) : (if (true = false) then a else b) = b := by
  simp

/-- Helper: an `if` guarded by the absurd boolean equation collapses. -/
theorem ite_false_eq_true {α : Sort _} (a b : α) : (if (false = true) then a else b) = b := by
  simp

/-- Helper: validatePediatricDosing succeeds on nonnegative inputs,
with the band-specific weight warnings and no errors. -/
theorem validatePediatricDosing_ok {a w : ℚ} (ha : 0 ≤ a) (hw : 0 ≤ w) :
    validatePediatricDosing (some a) (some w) = .ok
      { valid := true
      , warnings :=
          (if pediatricSpecBand a = .neonate ∧ (optLt (some w) (1/2) || optGt (some w) 5) then
            ["Neonate weight outside typical range (0.5-5 kg). Please verify."] else []) ++
          (if pediatricSpecBand a = .infant ∧ (optLt (some w) 2 || optGt (some w) 15) then
            ["Infant weight outside typical range (2-15 kg). Please verify."] else []) ++
          (if pediatricSpecBand a = .child ∧ (optLt (some w) 8 || optGt (some w) 50) then
            ["Child weight outside typical range (8-50 kg). Please verify."] else [])
      , errors := [] } := by
  have l1 : optLt (some a) 0 = false := by
    simp only [optLt, decide_eq_false_iff_not, not_lt]
    exact ha
  have l2 : optLt (some w) 0 = false := by
    simp only [optLt, decide_eq_false_iff_not, not_lt]
    exact hw
  unfold validatePediatricDosing getPediatricAgeGroupN
  dsimp only
  rw [classifier_ok ha, l1, l2]
  dsimp only
  rw [ite_false_eq_true, ite_false_eq_true]
  simp

/-- C5: a pediatric-dosing invocation whose inputs pass validation is
returned (never aborted), its value is the rounded `dosePerKg × weight`,
and a dose per kg above the per-drug ceiling or above the drug-agnostic
100 mg/kg ceiling carries an error-level overdose warning on that
still-returned result. -/
theorem pediatric_overdose_advisory_returns :
    ∀ (weight age dosePerKg : ℚ) (drugName : String),
      10 ≤ weight → weight ≤ 500 → 0 ≤ age → age ≤ 150 → 0 ≤ dosePerKg → drugName ≠ "" →
      ∃ r, executeCalculator "pediatric-dosing-weight"
          (mkPedParams weight age dosePerKg drugName) calculatePediatricDosingWeight = .ok r ∧
        r.value = some ((jsRoundQ (dosePerKg * weight * 100) : ℚ) / 100) ∧
        ((100 < dosePerKg ∨
          (∃ m notes, MAX_DAILY_DOSES (jsToLower drugName) = some (m, notes) ∧ m < dosePerKg)) →
          ∃ w ∈ r.warnings, w.level = .error ∧ w.category = some .overdose) := by
  intro weight age dosePerKg drugName hw0 hw1 ha0 ha1 hd0 hdn
  have eW : getNum (mkPedParams weight age dosePerKg drugName) "weight" = some weight := rfl
  have eA : getNum (mkPedParams weight age dosePerKg drugName) "age" = some age := rfl
  have eD : getNum (mkPedParams weight age dosePerKg drugName) "dosePerKg" =
      some dosePerKg := rfl
  have eH : getNum (mkPedParams weight age dosePerKg drugName) "height" = none := rfl
  have eC : getNum (mkPedParams weight age dosePerKg drugName) "creatinine" = none := rfl
  have eDrug : jsOrStr (mkPedParams weight age dosePerKg drugName) "drugName"
      "medication" = drugName := by
    unfold jsOrStr
    rw [show getStr (mkPedParams weight age dosePerKg drugName) "drugName" =
      some drugName from rfl]
    dsimp only
    rw [if_neg hdn]
  have ePreg : jsOrBool (mkPedParams weight age dosePerKg drugName) "isPregnant" =
      false := rfl
  have eLact : jsOrBool (mkPedParams weight age dosePerKg drugName) "isLactating" =
      false := rfl
  have hpos : validatePositiveNumbers (mkPedParams weight age dosePerKg drugName) = [] := by
    unfold validatePositiveNumbers
    rw [List.filterMap_eq_nil_iff]
    intro kv hkv
    simp only [mkPedParams, List.mem_cons, List.not_mem_nil, or_false] at hkv
    rcases hkv with rfl | rfl | rfl | rfl
    · dsimp only
      rw [if_neg (not_lt.mpr (by linarith : (0 : ℚ) ≤ weight))]
    · dsimp only
      rw [if_neg (not_lt.mpr ha0)]
    · dsimp only
      rw [if_neg (not_lt.mpr hd0)]
    · rfl
  have n1 : ¬ (500 : ℚ) < weight := not_lt.mpr hw1
  have n2 : ¬ weight < 1/2 := not_lt.mpr (by linarith)
  have n3 : ¬ age < 0 := not_lt.mpr ha0
  have hext : (checkExtremeValues (mkPedParams weight age dosePerKg drugName)).filter
      (fun c => decide (c.severity = WLevel.error)) = [] := by
    unfold checkExtremeValues
    rw [eW, eA, eH, eC]
    rcases lt_or_le (200 : ℚ) weight with h2 | h2 <;>
      rcases lt_or_le (120 : ℚ) age with h3 | h3
    · simp [n1, n2, n3, h2, h3, List.filter_append]
      all_goals linarith
    · simp [n1, n2, n3, h2, not_lt.mpr h3, List.filter_append]
      all_goals linarith
    · simp [n1, n2, n3, not_lt.mpr h2, h3, List.filter_append]
      all_goals linarith
    · simp [n1, n2, n3, not_lt.mpr h2, not_lt.mpr h3, List.filter_append]
      all_goals linarith
  have hvW : (validateWeight (some weight)).valid = true := by
    rw [validateWeight, validateRange_valid]
    simp only [optLt, optGt, weightRange, Bool.not_eq_true', Bool.or_eq_false_iff,
      decide_eq_false_iff_not, not_lt]
    exact ⟨hw0, hw1⟩
  have hvA : (validateAge (some age)).valid = true := by
    rw [validateAge, validateRange_valid]
    simp only [optLt, optGt, ageRange, Bool.not_eq_true', Bool.or_eq_false_iff,
      decide_eq_false_iff_not, not_lt]
    exact ⟨ha0, ha1⟩
  have hband : getPediatricAgeGroupN (some age) = .ok (pediatricSpecBand age) := by
    unfold getPediatricAgeGroupN
    exact classifier_ok ha0
  have hinfo : getPediatricAgeInfoN (some age) =
      .ok (PEDIATRIC_AGE_GROUPS (pediatricSpecBand age)) := by
    unfold getPediatricAgeInfoN
    rw [hband]
    rfl
  unfold executeCalculator
  dsimp only
  rw [hpos, hext,
    if_neg (show ¬ (List.isEmpty ([] : List String) = false) by simp),
    if_neg (show ¬ (List.isEmpty ([] : List ExtremeValueCheck) = false) by simp)]
  unfold calculatePediatricDosingWeight
  rw [eW, eA, eD, eDrug, ePreg, eLact]
  dsimp only
  rw [hvW, ite_true_eq_false, hvA, ite_true_eq_false,
    validatePediatricDosing_ok ha0 (by linarith)]
  dsimp only
  rw [ite_true_eq_false, hinfo]
  dsimp only
  simp only [Bool.or_self]
  rw [ite_false_eq_true]
  refine ⟨_, rfl, rfl, ?_⟩
  intro hcase
  rcases hcase with h100 | ⟨m, notes, hmax, hlt⟩
  · have hED : ∃ w ∈ checkExtremeDose (some dosePerKg),
        w.level = WLevel.error ∧ w.category = some WCategory.overdose := by
      unfold checkExtremeDose
      rw [if_pos (show optGt (some dosePerKg) 100 = true by
        simp only [optGt, decide_eq_true_eq]; exact h100)]
      exact ⟨_, List.mem_singleton_self _, rfl, rfl⟩
    obtain ⟨w0, hw0mem, hprop⟩ := hED
    refine ⟨w0, ?_, hprop⟩
    dsimp only
    simp only [List.mem_append]
    tauto
  · have hOD : ∃ w ∈ checkOverdose drugName (some dosePerKg) (some weight),
        w.level = WLevel.error ∧ w.category = some WCategory.overdose := by
      unfold checkOverdose
      rw [hmax]
      dsimp only
      rw [if_pos (show optGt (some dosePerKg) m = true by
        simp only [optGt, decide_eq_true_eq]; exact hlt)]
      exact ⟨_, List.mem_singleton_self _, rfl, rfl⟩
    obtain ⟨w0, hw0mem, hprop⟩ := hOD
    refine ⟨w0, ?_, hprop⟩
    dsimp only
    simp only [List.mem_append]
    tauto

/-- Witness for C5: 120 mg/kg of acetaminophen (ceiling 75 mg/kg) for a
20 kg six-year-old is returned with an error-level overdose warning. -/
theorem pediatric_overdose_advisory_returns_witness :
    ∃ r, executeCalculator "pediatric-dosing-weight"
        (mkPedParams 20 6 120 "acetaminophen") calculatePediatricDosingWeight = .ok r ∧
      r.value = some ((jsRoundQ (120 * 20 * 100) : ℚ) / 100) ∧
      ∃ w ∈ r.warnings, w.level = .error ∧ w.category = some .overdose := by
  obtain ⟨r, hok, hval, himp⟩ := pediatric_overdose_advisory_returns 20 6 120 "acetaminophen"
    (by norm_num) (by norm_num) (by norm_num) (by norm_num) (by norm_num) (by decide)
  exact ⟨r, hok, hval, himp (Or.inl (by norm_num))⟩

/-- Counterexample to C10 as stated: an invocation that omits the
weight key entirely survives validation (`undefined` fails every range
comparison), classifies as a neonate by age, computes a `NaN` dose, and
carries no neonate-weight warning — so not every surviving neonate
invocation has the warning. -/
theorem neonate_missing_weight_cex :
    ((executeCalculator "pediatric-dosing-weight"
        [("age", PValue.num (1/20)), ("dosePerKg", PValue.num 10)]
        calculatePediatricDosingWeight).map (fun r => (r.value, r.warnings)) =
      .ok (none,
        [⟨.info, "Patient age group: Neonatal period (0-28 days of life) (0-28 days). Pediatric dosing may require age-specific considerations.", some .pediatric⟩])) ∧
    ((⟨.warning, "Neonate weight outside typical range (0.5-5 kg). Please verify.", none⟩ :
        SafetyWarning) ∉
      ([⟨.info, "Patient age group: Neonatal period (0-28 days of life) (0-28 days). Pediatric dosing may require age-specific considerations.", some .pediatric⟩] :
        List SafetyWarning)) ∧
    getPediatricAgeGroup (1/20) = .ok .neonate := by
  have hcls : getPediatricAgeGroup ((1 : ℚ)/20) = .ok .neonate := by
    unfold getPediatricAgeGroup
    norm_num
  have hmed : MAX_DAILY_DOSES (jsToLower "medication") = none := by decide
  refine ⟨?_, by decide, hcls⟩
  simp [executeCalculator, validatePositiveNumbers, checkExtremeValues,
    checkContraindications, calculatePediatricDosingWeight, validatePediatricDosing,
    getPediatricAgeInfoN, getPediatricAgeGroupN, hcls, hmed,
    PEDIATRIC_AGE_GROUPS, validateWeight, validateAge, validateRange, warnList,
    jsOrStr, jsOrBool, getNum, getStr, getBool, lookupParam, optLt, optGt,
    checkOverdose, checkExtremeDose, jsShowNum, jsShowRaw,
    weightRange, ageRange, Except.map]
  norm_num [hcls]
  decide

/-- C10 amended: an invocation that supplies a weight below the 10 kg
hard minimum aborts before any dose is computed, and every surviving
invocation that supplies a weight and whose supplied age classifies as
neonate carries the neonate-weight warning (an invocation may instead
omit the weight key entirely, survive with a NaN dose, and carry no
weight warning — the counterexample above). -/
theorem neonate_warning_amended :
    (∀ (ps : Params) (w : ℚ), getNum ps "weight" = some w → w < 10 →
      isOkE (executeCalculator "pediatric-dosing-weight" ps calculatePediatricDosingWeight) =
        false) ∧
    (∀ (ps : Params) (a w : ℚ) (r : CalcResult),
      executeCalculator "pediatric-dosing-weight" ps calculatePediatricDosingWeight = .ok r →
      getNum ps "age" = some a →
      getNum ps "weight" = some w →
      getPediatricAgeGroup a = .ok .neonate →
      (⟨.warning, "Neonate weight outside typical range (0.5-5 kg). Please verify.", none⟩ :
        SafetyWarning) ∈ r.warnings) := by
  constructor
  · intro ps w hw hlt
    have hv : (validateWeight (some w)).valid = false := by
      rw [validateWeight, validateRange_valid]
      simp only [optLt, optGt, weightRange, Bool.not_eq_true']
      simp [hlt]
    unfold executeCalculator
    dsimp only
    split
    · rfl
    · split
      · rfl
      · have hcalc : calculatePediatricDosingWeight ps =
            .error ((validateWeight (some w)).error.getD "") := by
          unfold calculatePediatricDosingWeight
          rw [hw]
          dsimp only
          rw [if_pos hv]
        rw [hcalc]
        rfl
  · intro ps a w r hok ha hw hneo
    have ha0 : 0 ≤ a := by
      by_contra hcon
      rw [classifier_error (not_le.mp hcon)] at hneo
      simp at hneo
    unfold executeCalculator at hok
    dsimp only at hok
    split at hok
    · simp at hok
    · split at hok
      · simp at hok
      · split at hok
        · simp at hok
        · rename_i result heq
          unfold calculatePediatricDosingWeight at heq
          rw [ha, hw] at heq
          dsimp only at heq
          split at heq
          · simp at heq
          · rename_i hwvalid
            have hwtrue : (validateWeight (some w)).valid = true := by
              revert hwvalid
              cases (validateWeight (some w)).valid <;> simp
            have hw10 : 10 ≤ w := by
              rw [validateWeight, validateRange_valid] at hwtrue
              simp only [optLt, optGt, weightRange, Bool.not_eq_true',
                Bool.or_eq_false_iff, decide_eq_false_iff_not, not_lt] at hwtrue
              exact hwtrue.1
            split at heq
            · simp at heq
            · split at heq
              · simp at heq
              · rename_i pv hpv
                split at heq
                · simp at heq
                · split at heq
                  · simp at heq
                  · rename_i info hinfo
                    injection heq with heq
                    injection hok with hok
                    have hw0 : (0 : ℚ) ≤ w := by linarith
                    rw [validatePediatricDosing_ok ha0 hw0] at hpv
                    injection hpv with hpv
                    have hbandneo : pediatricSpecBand a = .neonate := by
                      have hcls := classifier_ok ha0
                      rw [hneo] at hcls
                      injection hcls with h2
                      exact h2.symm
                    have hcond : (optLt (some w) (1/2) || optGt (some w) 5) = true := by
                      simp only [optLt, optGt, Bool.or_eq_true, decide_eq_true_eq]
                      exact Or.inr (by linarith)
                    have hmem0 :
                        "Neonate weight outside typical range (0.5-5 kg). Please verify." ∈
                          pv.warnings := by
                      rw [← hpv]
                      dsimp only
                      rw [if_pos ⟨hbandneo, hcond⟩]
                      simp [List.mem_append]
                    have hmem1 : (⟨.warning,
                        "Neonate weight outside typical range (0.5-5 kg). Please verify.",
                        none⟩ : SafetyWarning) ∈
                        pv.warnings.map (fun m => ⟨.warning, m, none⟩) :=
                      List.mem_map.mpr ⟨_, hmem0, rfl⟩
                    rw [← hok]
                    dsimp only
                    rw [← heq]
                    dsimp only
                    simp only [List.mem_append]
                    tauto

/-- Witness for the amended C10: a 5 kg weight aborts the pediatric
dosing calculator before any dose is computed. -/
theorem neonate_warning_amended_witness :
    isOkE (executeCalculator "pediatric-dosing-weight" [("weight", PValue.num 5)]
      calculatePediatricDosingWeight) = false :=
  neonate_warning_amended.1 [("weight", PValue.num 5)] 5 rfl (by norm_num)

/-- Counterexample to C7 as stated: the recent-entries query with
requested limit 0 is JS `slice(-0)` = `slice(0)` and returns the whole
log, so it does not return at most the requested limit. -/
theorem audit_query_limit_zero_cex :
    getAuditLogs [sampleEntry] 0 = [sampleEntry] ∧
    ¬ (([sampleEntry] : List AuditLogEntry).length ≤ 0) := by
  constructor
  · rfl
  · simp

/-- Helper: folding the append-and-evict step keeps exactly the last
MAX_LOGS elements of everything ever pushed. -/
theorem foldl_pushBounded (es : List AuditLogEntry) :
    ∀ start : List AuditLogEntry, start.length ≤ MAX_LOGS →
      es.foldl pushBounded start = (start ++ es).drop ((start ++ es).length - MAX_LOGS) := by
  induction es with
  | nil =>
    intro start h
    simp [Nat.sub_eq_zero_of_le h]
  | cons e tl ih =>
    intro start h
    rw [List.foldl_cons]
    by_cases hlen : (start ++ [e]).length > MAX_LOGS
    · have hstart : start.length = MAX_LOGS := by
        simp only [List.length_append, List.length_singleton] at hlen
        omega
      have hPB : pushBounded start e = (start ++ [e]).tail := by
        unfold pushBounded
        rw [if_pos hlen]
      obtain ⟨s0, srest, rfl⟩ : ∃ s0 srest, start = s0 :: srest := by
        cases start with
        | nil => simp [MAX_LOGS] at hstart
        | cons a l => exact ⟨a, l, rfl⟩
      simp only [List.length_cons] at hstart
      have htail : ((s0 :: srest) ++ [e]).tail = srest ++ [e] := rfl
      rw [hPB, htail]
      have hlen2 : (srest ++ [e]).length ≤ MAX_LOGS := by
        simp only [List.length_append, List.length_singleton]
        omega
      rw [ih (srest ++ [e]) hlen2]
      have hL : ((srest ++ [e]) ++ tl).length - MAX_LOGS = tl.length := by
        simp only [List.length_append, List.length_singleton]
        omega
      have hR : ((s0 :: srest) ++ e :: tl).length - MAX_LOGS = tl.length + 1 := by
        simp only [List.length_append, List.length_cons]
        omega
      rw [hL, hR]
      rw [show ((s0 :: srest) ++ e :: tl) = s0 :: (srest ++ e :: tl) from rfl]
      rw [List.drop_succ_cons]
      rw [List.append_assoc, List.singleton_append]
    · have hPB : pushBounded start e = start ++ [e] := by
        unfold pushBounded
        rw [if_neg hlen]
      have hlen2 : (start ++ [e]).length ≤ MAX_LOGS := by omega
      rw [hPB, ih _ hlen2, List.append_assoc, List.singleton_append]

/-- C7 amended: the audit log never exceeds its capacity of MAX_LOGS
entries; after more than MAX_LOGS pushes exactly the MAX_LOGS most
recent entries remain, in call order; and the recent-entries query with
a positive limit returns a suffix of the log of length at most the
limit (newest-last in call order).  A limit of 0 — JS `slice(-0)` —
returns the whole log, the counterexample above. -/
theorem audit_log_bounded_amended :
    (∀ (logs : List AuditLogEntry) (e : AuditLogEntry),
      logs.length ≤ MAX_LOGS → (pushBounded logs e).length ≤ MAX_LOGS) ∧
    (∀ es : List AuditLogEntry, MAX_LOGS < es.length →
      es.foldl pushBounded [] = es.drop (es.length - MAX_LOGS)) ∧
    (∀ (logs : List AuditLogEntry) (limit : ℤ), 1 ≤ limit →
      getAuditLogs logs limit = logs.drop (logs.length - limit.toNat) ∧
      (getAuditLogs logs limit).length ≤ limit.toNat) := by
  refine ⟨?_, ?_, ?_⟩
  · intro logs e h
    unfold pushBounded
    dsimp only
    split_ifs with hc
    · simp only [List.length_tail, List.length_append, List.length_singleton]
      omega
    · simp only [List.length_append, List.length_singleton] at hc ⊢
      omega
  · intro es h
    rw [foldl_pushBounded es [] (by simp)]
    simp
  · intro logs limit h
    have hneg : -limit < 0 := by omega
    have heq : getAuditLogs logs limit = logs.drop (logs.length - limit.toNat) := by
      unfold getAuditLogs jsSlice
      rw [if_pos hneg, neg_neg]
    refine ⟨heq, ?_⟩
    rw [heq]
    simp only [List.length_drop]
    omega

/-- Witness for the amended C7: 1001 pushes leave the last 1000. -/
theorem audit_log_bounded_amended_witness :
    (List.replicate (MAX_LOGS + 1) sampleEntry).foldl pushBounded [] =
      (List.replicate (MAX_LOGS + 1) sampleEntry).drop
        ((List.replicate (MAX_LOGS + 1) sampleEntry).length - MAX_LOGS) :=
  audit_log_bounded_amended.2.1 (List.replicate (MAX_LOGS + 1) sampleEntry) (by simp)

/-- Counterexample to C8 as stated: an unknown calculator type throws
before the try/catch, so nothing is appended to the audit log — the log
stays empty instead of gaining the entry the claim requires. -/
theorem unknown_type_not_logged_cex :
    executeCalculatorWithSafety [] "nonexistent" [] =
      (.error "Unknown calculator type: nonexistent", ([] : List AuditLogEntry)) ∧
    (([] : List AuditLogEntry) ≠
      [{ calculatorType := "nonexistent", inputs := [], output := none,
         error := some "Unknown calculator type: nonexistent" }]) := by
  constructor
  · rfl
  · simp

/-- C8 amended: a range-violation or negative-value abort computes
nothing, propagates the error, and is appended to the audit log with
the error message attached to the sanitized inputs; an unknown
calculator type also aborts with an error but is not logged (the
counterexample above). -/
theorem abort_logging_amended :
    (∀ (logs : List AuditLogEntry) (params : Params) (ct : String),
      CALCULATORS ct = none →
      executeCalculatorWithSafety logs ct params =
        (.error ("Unknown calculator type: " ++ ct), logs)) ∧
    (∀ (logs : List AuditLogEntry) (params : Params) (ct : String)
      (f : Params → Except String CalcResult) (e : String),
      CALCULATORS ct = some f →
      executeCalculator ct params f = .error e →
      executeCalculatorWithSafety logs ct params =
        (.error e,
          pushBounded logs
            { calculatorType := ct
            , inputs := sanitizeInputs params
            , output := none
            , error := some e })) ∧
    (∀ (params : Params) (k : String) (q : ℚ) (ct : String)
      (f : Params → Except String CalcResult),
      (k, PValue.num q) ∈ params → q < 0 →
      isOkE (executeCalculator ct params f) = false) ∧
    (∀ (params : Params) (w : ℚ),
      getNum params "weight" = some w → w < 10 →
      isOkE (executeCalculator "creatinine-clearance" params calculateCreatinineClearance) =
        false) := by
  refine ⟨?_, ?_, ?_, ?_⟩
  · intro logs params ct h
    unfold executeCalculatorWithSafety
    rw [h]
  · intro logs params ct f e hf he
    unfold executeCalculatorWithSafety
    rw [hf]
    dsimp only
    rw [he]
    rfl
  · intro params k q ct f hmem hq
    have hne : validatePositiveNumbers params ≠ [] := by
      unfold validatePositiveNumbers
      intro hnil
      rw [List.filterMap_eq_nil_iff] at hnil
      have hx := hnil (k, PValue.num q) hmem
      dsimp only at hx
      rw [if_pos hq] at hx
      simp at hx
    have hfalse : (validatePositiveNumbers params).isEmpty = false := by
      cases hvp : validatePositiveNumbers params with
      | nil => exact absurd hvp hne
      | cons a l => rfl
    unfold executeCalculator
    dsimp only
    rw [if_pos hfalse]
    rfl
  · intro params w hw hlt
    have hv : (validateWeight (some w)).valid = false := by
      rw [validateWeight, validateRange_valid]
      simp only [optLt, optGt, weightRange, Bool.not_eq_true']
      simp [hlt]
    have hcrcl : isOkE (calculateCreatinineClearance params) = false := by
      unfold calculateCreatinineClearance
      rw [hw]
      dsimp only
      split
      · rfl
      · try split
        all_goals rfl
    unfold executeCalculator
    dsimp only
    split
    · rfl
    · split
      · rfl
      · cases hcalc : calculateCreatinineClearance params with
        | error e => rfl
        | ok r =>
          rw [hcalc] at hcrcl
          simp [isOkE] at hcrcl

/-- Witness for the amended C8: a weight of 5 kg through
creatinine-clearance aborts and is logged with the validation error. -/
theorem abort_logging_amended_witness :
    executeCalculatorWithSafety [] "creatinine-clearance"
      [("age", PValue.num 30), ("weight", PValue.num 5), ("creatinine", PValue.num 1)] =
      (.error ((validateWeight (some 5)).error.getD ""),
        pushBounded []
          { calculatorType := "creatinine-clearance"
          , inputs := sanitizeInputs
              [("age", PValue.num 30), ("weight", PValue.num 5), ("creatinine", PValue.num 1)]
          , output := none
          , error := some ((validateWeight (some 5)).error.getD "") }) := by
  have hvA : (validateAge (some (30 : ℚ))).valid = true := by
    rw [validateAge, validateRange_valid]
    norm_num [optLt, optGt, ageRange]
  have hvW : (validateWeight (some (5 : ℚ))).valid = false := by
    rw [validateWeight, validateRange_valid]
    norm_num [optLt, optGt, weightRange]
  have he : executeCalculator "creatinine-clearance"
      [("age", PValue.num 30), ("weight", PValue.num 5), ("creatinine", PValue.num 1)]
      calculateCreatinineClearance = .error ((validateWeight (some 5)).error.getD "") := by
    have hext0 : checkExtremeValues
        [("age", PValue.num 30), ("weight", PValue.num 5), ("creatinine", PValue.num 1)] =
        [] := by
      simp [checkExtremeValues, getNum, lookupParam]
      norm_num
    unfold executeCalculator
    dsimp only
    rw [show validatePositiveNumbers
        [("age", PValue.num 30), ("weight", PValue.num 5), ("creatinine", PValue.num 1)] =
        [] from rfl, hext0,
      if_neg (show ¬ (List.isEmpty ([] : List String) = false) by simp),
      if_neg (show ¬ (List.isEmpty (List.filter (fun c => decide (c.severity = WLevel.error))
        ([] : List ExtremeValueCheck)) = false) by simp)]
    unfold calculateCreatinineClearance
    rw [show getNum [("age", PValue.num 30), ("weight", PValue.num 5),
        ("creatinine", PValue.num 1)] "age" = some 30 from rfl,
      show getNum [("age", PValue.num 30), ("weight", PValue.num 5),
        ("creatinine", PValue.num 1)] "weight" = some 5 from rfl]
    dsimp only
    rw [hvA, ite_true_eq_false, if_pos hvW]
  exact abort_logging_amended.2.1 [] _ "creatinine-clearance" calculateCreatinineClearance _
    rfl he

end MedicalCalc
